import Mathlib

/-!
Request/response correlation of the R-Car Taurus drivers.

A shallow embedding of

* `rcar_vivid_cb` (drivers/media/platform/rcar-vivid/rcar-vivid-drv.c), the inbound
  callback: classification of an envelope, the unsolicited frame-ready path and the
  scan of the list of pending events;
* `rcar_vivid_probe` and `rcar_vivid_remove` of the same file;
* `rct_eth_conn_send_cmd` and the public commands built on it
  (drivers/net/ethernet/renesas/rcar-taurus/rcar_taurus_ether_conn.c);
* `rcar_mfis_trigger_interrupt` (drivers/misc/rcar-mfis/rcar_mfis_drv.c);
* `rcar_cr7_da_to_va` (drivers/remoteproc/rcar_cr7_remoteproc.c).

Conventions of the embedding.

* A kernel `struct list_head` list is a Lean list in `next` order, the first element
  being `head->next`.  `list_add(new, head)` inserts right after the head (a cons);
  `list_for_each_prev` walks `head->prev`, `head->prev->prev`, ... (last element first).
* A `struct completion` is its `done` counter: `complete()` adds one to it and a wait
  that finds it non-zero takes one away.
* Every pending event carries the address of its node, `addr`: the identity of the
  object, never read by the code.
* Memory that the C code reads outside an array makes the embedded function return
  `none`.
* Constants, macros and types that come from headers that are not part of the sources at
  hand (`r_taurus_camera_protocol.h`, `r_taurus_ether_protocol.h`, `rcar-vivid.h`) are
  parameters, gathered in `camera_protocol` and `ether_protocol`.
* The inbound callback runs in another context than a caller of `rct_eth_conn_send_cmd`.
  A call is evaluated against an environment, `send_cmd_env`, which fixes the results of
  the allocations and of the send, what the scheduler does to the two waits, and the
  envelopes the callback processes between the points at which the call looks at its
  pending event.  The callback of the Ethernet channel is not part of the sources at
  hand: the envelopes go through the scan of `rcar_vivid_cb`, on the same
  `struct taurus_event_list`.  Insertions and removals by other callers during a call
  are not part of the environment.
-/

namespace LinuxBsp

/-! ## Errno values (include/uapi/asm-generic/errno*.h, include/linux/errno.h) -/

/-- EIO errno value. -/
def EIO : Int := 5
/-- ENOMEM errno value. -/
def ENOMEM : Int := 12
/-- EINVAL errno value. -/
def EINVAL : Int := 22
/-- EPIPE errno value. -/
def EPIPE : Int := 32
/-- ETIMEDOUT errno value. -/
def ETIMEDOUT : Int := 110
/-- ERESTARTSYS errno value (kernel internal). -/
def ERESTARTSYS : Int := 512

/-! ## Envelopes and pending events -/

/-- Header of a result envelope (`res->hdr`): the fields the drivers read. -/
structure R_TAURUS_ResultMsg_t where
  Id : Nat
  Per : Nat
  Channel : Nat
  Result : Nat
  Aux : Nat
deriving DecidableEq, Repr

/-- Result envelope (`struct taurus_camera_res_msg`, `struct taurus_ether_res_msg`):
the header, the payload type and the raw words of the `params` union. -/
structure taurus_res_msg where
  hdr : R_TAURUS_ResultMsg_t
  type : Nat
  params : List Nat
deriving DecidableEq, Repr

/-- The camera driver's result envelope. -/
abbrev taurus_camera_res_msg := taurus_res_msg

/-- The Ethernet driver's result envelope. -/
abbrev taurus_ether_res_msg := taurus_res_msg

/-- A zero-filled envelope, as `devm_kzalloc` returns it. -/
def zeroed_res_msg : taurus_res_msg :=
  { hdr := { Id := 0, Per := 0, Channel := 0, Result := 0, Aux := 0 }, type := 0, params := [] }

/-- Pending event (`struct taurus_event_list`, rcar_taurus_ether.h): `result` is the
buffer `event->result` points to, `ack` and `completed` are the `done` counters of the
two completions, `addr` is the address of the node. -/
structure taurus_event_list where
  addr : Nat
  id : Nat
  result : taurus_res_msg
  ack : Nat
  ack_received : Bool
  completed : Nat
deriving DecidableEq, Repr

/-- The two completions of a pending event. -/
inductive taurus_signal where
  | ack
  | completed
deriving DecidableEq, Repr

/-- Kernel `complete(&x)`: one more completion is posted on `x`. -/
def complete (done : Nat) : Nat := done + 1

/-- Kernel `list_add(new, head)`: the new node becomes `head->next`. -/
def list_add {α : Type} (new : α) (head : List α) : List α := new :: head

/-- Kernel `list_for_each_prev`: the body runs on the last node first and on
`head->next` last; the nodes keep their place, `s` is the state the body threads. -/
def list_for_each_prev {α σ : Type} (body : α → σ → α × σ) : List α → σ → List α × σ
  | [], s => ([], s)
  | x :: xs, s =>
    let r := list_for_each_prev body xs s
    let y := body x r.2
    (y.1 :: r.1, y.2)

/-- Body of the scan of `rcar_vivid_cb` (rcar-vivid-drv.c lines 89-101) for one node:
on an identifier match the envelope is copied into the result buffer, then either
`completed` is posted (flag already set) or the flag is set and `ack` is posted.
The second component logs the completions posted, in order, by node address. -/
def rcar_vivid_cb_match (res : taurus_res_msg) (event : taurus_event_list)
    (fired : List (Nat × taurus_signal)) : taurus_event_list × List (Nat × taurus_signal) :=
  if event.id = res.hdr.Id then
    let event1 := { event with result := res }
    if event1.ack_received then
      ({ event1 with completed := complete event1.completed },
        fired ++ [(event1.addr, taurus_signal.completed)])
    else
      ({ event1 with ack_received := true, ack := complete event1.ack },
        fired ++ [(event1.addr, taurus_signal.ack)])
  else
    (event, fired)

/-- The scan of `rcar_vivid_cb` (lines 87-103): every node of the list of pending
events is visited, without a break after a match. -/
def rcar_vivid_cb_scan (head : List taurus_event_list) (res : taurus_res_msg) :
    List taurus_event_list × List (Nat × taurus_signal) :=
  list_for_each_prev (rcar_vivid_cb_match res) head []

/-! ## The camera streams -/

/-- Capture state of a stream (`enum` of rcar-vivid.h): the callback tells `STOPPED`
and `STOPPING` from every other enumerator, which `ACTIVE` stands for. -/
inductive vivid_dma_state where
  | STOPPED
  | STOPPING
  | ACTIVE (tag : Nat)
deriving DecidableEq, Repr

/-- Video buffer (`struct vb2_v4l2_buffer`): the fields the callback stamps, and the
address of the buffer. -/
structure vb2_v4l2_buffer where
  addr : Nat
  field : Nat
  sequence : Nat
  timestamp : Nat
deriving DecidableEq, Repr

/-- Stream (`struct vivid_v4l2_device`): the fields the callback uses.  `sequence` is an
`unsigned int`, like the `sequence` of the video buffer it is copied to.  `done_list`
collects the buffers handed to `vb2_buffer_done(.., VB2_BUF_STATE_DONE)`, oldest first,
and `wake_ups` counts the calls of `wake_up_interruptible` on
`buffer_pending_wait_queue`. -/
structure vivid_v4l2_device where
  state : vivid_dma_state
  queue_buf : List (Option vb2_v4l2_buffer)
  format_field : Nat
  sequence : Nat
  buffer_pending : Nat
  done_list : List vb2_v4l2_buffer
  wake_ups : Nat
deriving DecidableEq, Repr

/-- Camera device (`struct rcar_vivid_device`): the streams and the list of pending
events. -/
structure rcar_vivid_device where
  vivid : List vivid_v4l2_device
  taurus_event_list_head : List taurus_event_list
deriving DecidableEq, Repr

/-- What `r_taurus_camera_protocol.h` and the DMA part of the camera driver provide to
the callback: the sentinel `R_TAURUS_CMD_NOP`, the three decoders of the auxiliary
word, and `vivid_fill_hw_slot`. -/
structure camera_protocol where
  R_TAURUS_CMD_NOP : Nat
  TAURUS_CAMERA_EVT_CHANNEL : Nat → Nat
  TAURUS_CAMERA_EVT_FRAME_READY_FRAME_ID : Nat → Nat
  TAURUS_CAMERA_EVT_FRAME_READY_EMPTY_BUF : Nat → Nat
  vivid_fill_hw_slot : vivid_v4l2_device → Nat → vivid_v4l2_device

/-- Kernel `set_bit(nr, addr)`. -/
def set_bit (nr : Nat) (word : Nat) : Nat := word ||| (1 <<< nr)

/-- What a call of `rcar_vivid_cb` leaves: the value returned, the device, and the
completions posted, in order. -/
structure rcar_vivid_cb_result where
  ret : Int
  rvivid : rcar_vivid_device
  fired : List (Nat × taurus_signal)
deriving DecidableEq, Repr

/-- The frame-ready path of `rcar_vivid_cb` (lines 60-79) on one running stream;
`none` when `slot` is outside `queue_buf`.  `now` is what `ktime_get_ns()` reads. -/
def rcar_vivid_cb_frame (P : camera_protocol) (now : Nat) (v : vivid_v4l2_device)
    (slot empty_buf_cnt : Nat) : Option vivid_v4l2_device :=
  match v.queue_buf[slot]? with
  | none => none
  | some occupant =>
    let v1 : vivid_v4l2_device :=
      match occupant with
      | some buf =>
        { v with
          done_list := v.done_list ++
            [{ buf with field := v.format_field, sequence := v.sequence, timestamp := now }]
          queue_buf := v.queue_buf.set slot none }
      | none => v
    let v2 := { v1 with sequence := (v1.sequence + 1) % 2 ^ 32 }
    let v3 := P.vivid_fill_hw_slot v2 slot
    let v4 := { v3 with buffer_pending := set_bit slot v3.buffer_pending }
    some (if empty_buf_cnt = 0 then { v4 with wake_ups := v4.wake_ups + 1 } else v4)

/-- The inbound callback `rcar_vivid_cb`.  `none` when the event addresses a stream
outside `rvivid->vivid` or a slot outside `queue_buf`. -/
def rcar_vivid_cb (P : camera_protocol) (now : Nat) (rvivid : rcar_vivid_device)
    (res : taurus_camera_res_msg) : Option rcar_vivid_cb_result :=
  let res_id := res.hdr.Id
  if res.hdr.Result = P.R_TAURUS_CMD_NOP ∧ res_id = 0 then
    let channel := P.TAURUS_CAMERA_EVT_CHANNEL res.hdr.Aux
    let slot := P.TAURUS_CAMERA_EVT_FRAME_READY_FRAME_ID res.hdr.Aux
    let empty_buf_cnt := P.TAURUS_CAMERA_EVT_FRAME_READY_EMPTY_BUF res.hdr.Aux
    match rvivid.vivid[channel]? with
    | none => none
    | some v =>
      if v.state = vivid_dma_state.STOPPED then
        some { ret := 0, rvivid := rvivid, fired := [] }
      else if v.state = vivid_dma_state.STOPPING then
        some { ret := 0, rvivid := rvivid, fired := [] }
      else
        match rcar_vivid_cb_frame P now v slot empty_buf_cnt with
        | none => none
        | some v1 =>
          some { ret := 0, rvivid := { rvivid with vivid := rvivid.vivid.set channel v1 },
                 fired := [] }
  else
    let r := rcar_vivid_cb_scan rvivid.taurus_event_list_head res
    some { ret := 0, rvivid := { rvivid with taurus_event_list_head := r.1 }, fired := r.2 }

/-- Successive calls of `rcar_vivid_cb`, one for each inbound envelope, oldest first;
each envelope comes with the time `ktime_get_ns()` reads during its call. -/
def rcar_vivid_cb_seq (P : camera_protocol) :
    rcar_vivid_device → List (Nat × taurus_camera_res_msg) → Option rcar_vivid_device
  | rvivid, [] => some rvivid
  | rvivid, e :: es =>
    match rcar_vivid_cb P e.1 rvivid e.2 with
    | none => none
    | some r => rcar_vivid_cb_seq P r.rvivid es

/-- The event of `res` addresses an existing stream and, when that stream is neither
stopped nor stopping, an existing slot of it: the reads of `rvivid->vivid[channel]` and
`queue_buf[slot]` stay inside their arrays. -/
def frame_ready_in_range (P : camera_protocol) (rvivid : rcar_vivid_device)
    (res : taurus_camera_res_msg) : Bool :=
  match rvivid.vivid[P.TAURUS_CAMERA_EVT_CHANNEL res.hdr.Aux]? with
  | none => false
  | some v =>
    decide (v.state = vivid_dma_state.STOPPED) || decide (v.state = vivid_dma_state.STOPPING) ||
      decide (P.TAURUS_CAMERA_EVT_FRAME_READY_FRAME_ID res.hdr.Aux < v.queue_buf.length)

/-- A camera protocol for the examples: `R_TAURUS_CMD_NOP` is 0, the auxiliary word
holds the stream in bits 48-55, the slot in bits 8-15 and the count of empty buffers in
bits 0-7, and `vivid_fill_hw_slot` finds no queued buffer (the slot is left as it is). -/
def demo_camera_protocol : camera_protocol :=
  { R_TAURUS_CMD_NOP := 0
    TAURUS_CAMERA_EVT_CHANNEL := fun aux => (aux >>> 48) % 256
    TAURUS_CAMERA_EVT_FRAME_READY_FRAME_ID := fun aux => (aux >>> 8) % 256
    TAURUS_CAMERA_EVT_FRAME_READY_EMPTY_BUF := fun aux => aux % 256
    vivid_fill_hw_slot := fun v _ => v }

/-- An envelope with the given identifier and outcome, for the examples. -/
def demo_res (id result : Nat) : taurus_res_msg :=
  { hdr := { Id := id, Per := 0, Channel := 0, Result := result, Aux := 0 }, type := 0,
    params := [] }

/-- A pending event as `rct_eth_conn_send_cmd` creates it, for the examples. -/
def demo_event (addr id : Nat) : taurus_event_list :=
  { addr := addr, id := id, result := zeroed_res_msg, ack := 0, ack_received := false,
    completed := 0 }

/-- A running stream with two slots, the second one occupied, for the examples. -/
def demo_stream : vivid_v4l2_device :=
  { state := vivid_dma_state.ACTIVE 2
    queue_buf := [none, some { addr := 4096, field := 0, sequence := 0, timestamp := 0 }]
    format_field := 1, sequence := 41, buffer_pending := 0, done_list := [], wake_ups := 0 }

/-! ## The Ethernet connection layer -/

/-- What `r_taurus_ether_protocol.h` provides to rcar_taurus_ether_conn.c: the command and
outcome codes, the payload types, the size of a MAC address, and for every member of
the `params` union of a result envelope the reader of its `res` field (applied to the
raw words of the union). -/
structure ether_protocol where
  R_TAURUS_CMD_NOP : Nat
  R_TAURUS_CMD_OPEN : Nat
  R_TAURUS_CMD_CLOSE : Nat
  R_TAURUS_CMD_IOCTL : Nat
  R_TAURUS_RES_NACK : Nat
  R_TAURUS_RES_COMPLETE : Nat
  ETHER_PROTOCOL_OPEN : Nat
  ETHER_PROTOCOL_CLOSE : Nat
  ETHER_PROTOCOL_IOC_READ_MII : Nat
  ETHER_PROTOCOL_IOC_WRITE_MII : Nat
  ETHER_PROTOCOL_IOC_SET_MODE : Nat
  ETHER_PROTOCOL_IOC_GET_MODE : Nat
  ETHER_PROTOCOL_IOC_GET_PHYS_ADDR : Nat
  ETHER_PROTOCOL_IOC_SET_PHYS_ADDR : Nat
  ETHER_PROTOCOL_IOC_PROVIDE_TX_BUFF : Nat
  ETHER_PROTOCOL_IOC_TRANSMIT : Nat
  ETHER_PROTOCOL_IOC_TX_CONFIRMATION : Nat
  ETH_MACADDR_SIZE : Nat
  open_res : List Nat → Nat
  close_res : List Nat → Nat
  read_mii_res : List Nat → Nat
  write_mii_res : List Nat → Nat
  set_mode_res : List Nat → Nat
  get_mode_res : List Nat → Nat
  get_phys_res : List Nat → Nat
  set_phys_res : List Nat → Nat
  tx_buffer_res : List Nat → Nat
  transmit_res : List Nat → Nat
  tx_confirmation_res : List Nat → Nat

/-- Header of a command envelope (`cmd_msg.hdr`): the fields the commands set. -/
structure R_TAURUS_CmdMsg_t where
  Id : Nat
  Channel : Nat
  Cmd : Nat
  Par1 : Nat
deriving DecidableEq, Repr

/-- The member of the `params` union of a command envelope that a command fills. -/
inductive taurus_ether_cmd_params where
  | eth_init (cookie : Nat)
  | close (cookie : Nat)
  | read_mii (cookie CtrlIdx TrcvIdx RegIdx : Nat)
  | write_mii (cookie CtrlIdx TrcvIdx RegIdx RegVal : Nat)
  | eth_set_mode (cookie CtrlIdx : Nat) (CtrlMode : Bool)
  | eth_get_mode (cookie CtrlIdx : Nat)
  | get_phys (cookie CtrlIdx : Nat)
  | set_phys (cookie CtrlIdx : Nat) (PhysAddr : List Nat)
  | tx_buffer (cookie CtrlIdx LenByte : Nat)
  | transmit (cookie CtrlIdx BufIdx FrameType : Nat) (TxConfirmation : Bool) (LenByte : Nat)
      (PhysAddr : List Nat)
  | tx_confirmation (cookie CtrlIdx : Nat)
deriving DecidableEq, Repr

/-- Command envelope (`struct taurus_ether_cmd_msg`). -/
structure taurus_ether_cmd_msg where
  hdr : R_TAURUS_CmdMsg_t
  type : Nat
  params : taurus_ether_cmd_params
deriving DecidableEq, Repr

/-- Ethernet channel (`struct rcar_taurus_ether_channel`): the list of pending events. -/
structure rcar_taurus_ether_channel where
  ch_id : Nat
  taurus_event_list_head : List taurus_event_list
deriving DecidableEq, Repr

/-- Ethernet driver (`struct rcar_taurus_ether_drv`). -/
structure rcar_taurus_ether_drv where
  channels : List rcar_taurus_ether_channel
deriving DecidableEq, Repr

/-- A 32-bit two's complement value (`int`). -/
def wrap_int (x : Int) : Int := (x + 2 ^ 31) % 2 ^ 32 - 2 ^ 31

/-- The identifier generator `rct_eth_conn_get_uniq_id`: `atomic_inc_return` on the
`atomic_t` counter `rpmsg_id_counter`; the value returned and the new counter. -/
def rct_eth_conn_get_uniq_id (rpmsg_id_counter : Int) : Int × Int :=
  (wrap_int (rpmsg_id_counter + 1), wrap_int (rpmsg_id_counter + 1))

/-- Conversion of an `int` to `u32`, as in `cmd_msg.hdr.Id = rct_eth_conn_get_uniq_id()`. -/
def to_u32 (x : Int) : Nat := (x % 2 ^ 32).toNat

/-- Conversion of an `int` to `u8`. -/
def to_u8 (x : Int) : Nat := (x % 2 ^ 8).toNat

/-- What the scheduler does to one `wait_for_completion_interruptible_timeout`: `signal`
tells that the sleep was broken by a pending signal, `left` is the number of jiffies left
of the timeout when the completion was found posted (at most the timeout, which is
`msecs_to_jiffies(30000)` and fits an `int`). -/
structure wait_env where
  signal : Bool
  left : Nat
deriving DecidableEq, Repr

/-- Kernel `wait_for_completion_interruptible_timeout` (kernel/sched/completion.c,
`do_wait_for_common`), evaluated when the wait ends: with nothing posted the result is
`-ERESTARTSYS` after a signal and 0 after the timeout; with a completion posted one is
taken and the result is `timeout ?: 1`, `timeout` being `-ERESTARTSYS` when a signal broke
the sleep.  The value returned and the new `done`. -/
def wait_for_completion_interruptible_timeout (done : Nat) (w : wait_env) : Int × Nat :=
  let timeout : Int := if w.signal then -ERESTARTSYS else (w.left : Int)
  if done = 0 then
    (if w.signal then -ERESTARTSYS else 0, done)
  else
    (if timeout = 0 then 1 else timeout, done - 1)

/-- The effect of the inbound callback on a list of pending events, as in
`rcar_vivid_cb`: an envelope with outcome `R_TAURUS_CMD_NOP` and identifier 0 is an
unsolicited event and leaves the list alone, any other envelope goes through the scan. -/
def taurus_dispatch (nop : Nat) (head : List taurus_event_list) (res : taurus_res_msg) :
    List taurus_event_list :=
  if res.hdr.Result = nop ∧ res.hdr.Id = 0 then head
  else (rcar_vivid_cb_scan head res).1

/-- A call of `rct_eth_conn_send_cmd` between its `list_add` and its `list_del`: `event`
is the node of the call, which is `head->next`, and `others` are the nodes behind it. -/
structure pending_call where
  event : taurus_event_list
  others : List taurus_event_list
deriving DecidableEq, Repr

/-- The list of pending events while the call is pending: the list as `list_add` of the
node of the call left it. -/
def pending_call.head (st : pending_call) : List taurus_event_list :=
  list_add st.event st.others

/-- One inbound envelope processed by the callback while the call is pending. -/
def pending_call.inbound (nop : Nat) (st : pending_call) (res : taurus_res_msg) :
    pending_call :=
  let head := taurus_dispatch nop st.head res
  { event := head.headD st.event, others := head.tail }

/-- Inbound envelopes processed one after the other, oldest first. -/
def pending_call.inbound_all (nop : Nat) (st : pending_call) (l : List taurus_res_msg) :
    pending_call :=
  l.foldl (pending_call.inbound nop) st

/-- The environment of one call of `rct_eth_conn_send_cmd`: the two allocations (`event`
is the address returned for the node, `none` for NULL), the value `rpmsg_send` returns,
what the scheduler does to the two waits, and the envelopes the inbound callback
processes while the node is on the list: from `list_add` to the end of the ack wait (and
the read of the result that follows), from there to the end of the done wait (and the
copy that follows), and from the last of these points the call reaches to `list_del`. -/
structure send_cmd_env where
  event : Option Nat
  result : Bool
  rpmsg_send : Int
  wait_ack : wait_env
  wait_completed : wait_env
  inbound_ack : List taurus_ether_res_msg
  inbound_completed : List taurus_ether_res_msg
  inbound_cleanup : List taurus_ether_res_msg
deriving DecidableEq, Repr

/-- The steps of `rct_eth_conn_send_cmd` that the claims speak of. -/
inductive send_cmd_step where
  | list_add (addr : Nat)
  | rpmsg_send (cmd_msg : taurus_ether_cmd_msg)
  | wait_ack
  | wait_completed
  | memcpy_res_msg
  | list_del (addr : Nat)
  | devm_kfree_result
  | devm_kfree_event
deriving DecidableEq, Repr

/-- What a call of `rct_eth_conn_send_cmd` leaves: the value returned, the caller's
`res_msg`, the list of pending events of the channel, and the steps taken, in order. -/
structure send_cmd_result where
  ret : Int
  res_msg : taurus_ether_res_msg
  taurus_event_list_head : List taurus_event_list
  steps : List send_cmd_step
deriving DecidableEq, Repr

/-- The labels `cleanup_3`, `cleanup_2`, `cleanup_1` of `rct_eth_conn_send_cmd`
(lines 95-103): the envelopes still to come are processed, then the node is taken off
the list and both allocations are released. -/
def rct_eth_conn_send_cmd_cleanup_3 (nop : Nat) (env : send_cmd_env) (st : pending_call)
    (ret : Int) (res_msg : taurus_ether_res_msg) (steps : List send_cmd_step) :
    send_cmd_result :=
  let st1 := st.inbound_all nop env.inbound_cleanup
  { ret := ret, res_msg := res_msg, taurus_event_list_head := st1.others
    steps := steps ++ [send_cmd_step.list_del st1.event.addr, send_cmd_step.devm_kfree_result,
      send_cmd_step.devm_kfree_event] }

/-- The second phase of `rct_eth_conn_send_cmd` (lines 79-93), entered after an ack that
is not a rejection: the wait on `completed`, then the copy of the result into the
caller's `res_msg`. -/
def rct_eth_conn_send_cmd_wait_completed (nop : Nat) (env : send_cmd_env) (st3 : pending_call)
    (res_msg : taurus_ether_res_msg) (steps1 : List send_cmd_step) : send_cmd_result :=
  let st4 := st3.inbound_all nop env.inbound_completed
  let w2 := wait_for_completion_interruptible_timeout st4.event.completed env.wait_completed
  let st5 : pending_call := { st4 with event := { st4.event with completed := w2.2 } }
  let steps2 := steps1 ++ [send_cmd_step.wait_completed]
  if w2.1 = -ERESTARTSYS then
    rct_eth_conn_send_cmd_cleanup_3 nop env st5 w2.1 res_msg steps2
  else if w2.1 = 0 then
    rct_eth_conn_send_cmd_cleanup_3 nop env st5 (-ETIMEDOUT) res_msg steps2
  else
    rct_eth_conn_send_cmd_cleanup_3 nop env st5 0 st5.event.result
      (steps2 ++ [send_cmd_step.memcpy_res_msg])

/-- The first phase of `rct_eth_conn_send_cmd` (lines 61-77), entered after a successful
send: the wait on `ack`, then the test of the outcome held by the result buffer. -/
def rct_eth_conn_send_cmd_wait_ack (E : ether_protocol) (env : send_cmd_env)
    (st0 : pending_call) (res_msg : taurus_ether_res_msg) (steps0 : List send_cmd_step) :
    send_cmd_result :=
  let nop := E.R_TAURUS_CMD_NOP
  let st2 := st0.inbound_all nop env.inbound_ack
  let w1 := wait_for_completion_interruptible_timeout st2.event.ack env.wait_ack
  let st3 : pending_call := { st2 with event := { st2.event with ack := w1.2 } }
  let steps1 := steps0 ++ [send_cmd_step.wait_ack]
  if w1.1 = -ERESTARTSYS then
    rct_eth_conn_send_cmd_cleanup_3 nop env st3 w1.1 res_msg steps1
  else if w1.1 = 0 then
    rct_eth_conn_send_cmd_cleanup_3 nop env st3 (-ETIMEDOUT) res_msg steps1
  else if st3.event.result.hdr.Result = E.R_TAURUS_RES_NACK then
    rct_eth_conn_send_cmd_cleanup_3 nop env st3 (-EINVAL) res_msg steps1
  else
    rct_eth_conn_send_cmd_wait_completed nop env st3 res_msg steps1

/-- The request/response engine `rct_eth_conn_send_cmd` (lines 22-104). -/
def rct_eth_conn_send_cmd (E : ether_protocol) (env : send_cmd_env)
    (chan : rcar_taurus_ether_channel) (cmd_msg : taurus_ether_cmd_msg)
    (res_msg : taurus_ether_res_msg) : send_cmd_result :=
  match env.event with
  | none =>
    { ret := -ENOMEM, res_msg := res_msg, taurus_event_list_head := chan.taurus_event_list_head
      steps := [] }
  | some addr =>
    if env.result = false then
      { ret := -ENOMEM, res_msg := res_msg
        taurus_event_list_head := chan.taurus_event_list_head
        steps := [send_cmd_step.devm_kfree_event] }
    else
      let event : taurus_event_list :=
        { addr := addr, id := cmd_msg.hdr.Id, result := zeroed_res_msg, ack := 0,
          ack_received := false, completed := 0 }
      let st0 : pending_call :=
        { event := event, others := chan.taurus_event_list_head }
      let steps0 := [send_cmd_step.list_add addr, send_cmd_step.rpmsg_send cmd_msg]
      if env.rpmsg_send ≠ 0 then
        rct_eth_conn_send_cmd_cleanup_3 E.R_TAURUS_CMD_NOP env st0 env.rpmsg_send res_msg steps0
      else
        rct_eth_conn_send_cmd_wait_ack E env st0 res_msg steps0

/-- What a public command leaves: the value returned, the caller's `res_msg` (`none` for
a NULL pointer), the driver, the counter `rpmsg_id_counter`, and the steps taken by
`rct_eth_conn_send_cmd`. -/
structure eth_conn_result where
  ret : Int
  res_msg : Option taurus_ether_res_msg
  rct_eth : rcar_taurus_ether_drv
  rpmsg_id_counter : Int
  steps : List send_cmd_step
deriving DecidableEq, Repr

/-- The frame shared by the eleven public commands: the channel is read from
`rct_eth->channels[eth_ch]` (`none` when `eth_ch` is outside the array), a NULL `res_msg`
gives `-EINVAL`, the identifier is drawn and stamped into the command envelope that
`build` fills, the envelope goes to `rct_eth_conn_send_cmd`, a non-zero result of which
gives `-EPIPE`; then an outcome other than `R_TAURUS_RES_COMPLETE` or a non-zero `res`
field, read by `res_field`, gives `-EIO`. -/
def rct_eth_conn_command (E : ether_protocol) (env : send_cmd_env) (rpmsg_id_counter : Int)
    (rct_eth : rcar_taurus_ether_drv) (eth_ch : Nat) (res_msg : Option taurus_ether_res_msg)
    (build : Nat → taurus_ether_cmd_msg) (res_field : List Nat → Nat) :
    Option eth_conn_result :=
  match rct_eth.channels[eth_ch]? with
  | none => none
  | some chan =>
    match res_msg with
    | none =>
      some { ret := -EINVAL, res_msg := none, rct_eth := rct_eth
             rpmsg_id_counter := rpmsg_id_counter, steps := [] }
    | some out =>
      let id := rct_eth_conn_get_uniq_id rpmsg_id_counter
      let cmd_msg := build (to_u32 id.1)
      let r := rct_eth_conn_send_cmd E env chan cmd_msg out
      let rct_eth1 : rcar_taurus_ether_drv :=
        { rct_eth with
          channels := rct_eth.channels.set eth_ch
            { chan with taurus_event_list_head := r.taurus_event_list_head } }
      let ret : Int :=
        if r.ret ≠ 0 then -EPIPE
        else if r.res_msg.hdr.Result ≠ E.R_TAURUS_RES_COMPLETE ∨ res_field r.res_msg.params ≠ 0
        then - EIO
        else 0
      some { ret := ret, res_msg := some r.res_msg, rct_eth := rct_eth1
             rpmsg_id_counter := id.2, steps := r.steps }

/-- Public command `rct_eth_conn_open` (lines 106-131). -/
def rct_eth_conn_open (E : ether_protocol) (env : send_cmd_env) (rpmsg_id_counter : Int)
    (rct_eth : rcar_taurus_ether_drv) (eth_ch : Nat) (res_msg : Option taurus_ether_res_msg) :
    Option eth_conn_result :=
  rct_eth_conn_command E env rpmsg_id_counter rct_eth eth_ch res_msg
    (fun id =>
      { hdr := { Id := id, Channel := eth_ch, Cmd := E.R_TAURUS_CMD_OPEN,
                 Par1 := E.ETHER_PROTOCOL_OPEN }
        type := E.ETHER_PROTOCOL_OPEN
        params := taurus_ether_cmd_params.eth_init id })
    E.open_res

/-- Public command `rct_eth_conn_close` (lines 133-158). -/
def rct_eth_conn_close (E : ether_protocol) (env : send_cmd_env) (rpmsg_id_counter : Int)
    (rct_eth : rcar_taurus_ether_drv) (eth_ch : Nat) (res_msg : Option taurus_ether_res_msg) :
    Option eth_conn_result :=
  rct_eth_conn_command E env rpmsg_id_counter rct_eth eth_ch res_msg
    (fun id =>
      { hdr := { Id := id, Channel := eth_ch, Cmd := E.R_TAURUS_CMD_CLOSE,
                 Par1 := E.ETHER_PROTOCOL_CLOSE }
        type := E.ETHER_PROTOCOL_CLOSE
        params := taurus_ether_cmd_params.close id })
    E.close_res

/-- Public command `rct_eth_conn_mii_read` (lines 160-188). -/
def rct_eth_conn_mii_read (E : ether_protocol) (env : send_cmd_env) (rpmsg_id_counter : Int)
    (rct_eth : rcar_taurus_ether_drv) (eth_ch : Nat) (res_msg : Option taurus_ether_res_msg)
    (addr regnum : Int) : Option eth_conn_result :=
  rct_eth_conn_command E env rpmsg_id_counter rct_eth eth_ch res_msg
    (fun id =>
      { hdr := { Id := id, Channel := eth_ch, Cmd := E.R_TAURUS_CMD_IOCTL,
                 Par1 := E.ETHER_PROTOCOL_IOC_READ_MII }
        type := E.ETHER_PROTOCOL_IOC_READ_MII
        params := taurus_ether_cmd_params.read_mii id eth_ch (to_u8 addr) (to_u8 regnum) })
    E.read_mii_res

/-- Public command `rct_eth_conn_mii_write` (lines 190-219); the `res` field it reads
after the call is `params.read_mii.res` (line 215). -/
def rct_eth_conn_mii_write (E : ether_protocol) (env : send_cmd_env) (rpmsg_id_counter : Int)
    (rct_eth : rcar_taurus_ether_drv) (eth_ch : Nat) (res_msg : Option taurus_ether_res_msg)
    (addr regnum : Int) (val : Nat) : Option eth_conn_result :=
  rct_eth_conn_command E env rpmsg_id_counter rct_eth eth_ch res_msg
    (fun id =>
      { hdr := { Id := id, Channel := eth_ch, Cmd := E.R_TAURUS_CMD_IOCTL,
                 Par1 := E.ETHER_PROTOCOL_IOC_WRITE_MII }
        type := E.ETHER_PROTOCOL_IOC_WRITE_MII
        params :=
          taurus_ether_cmd_params.write_mii id eth_ch (to_u8 addr) (to_u8 regnum) val })
    E.read_mii_res

/-- Public command `rct_eth_conn_set_mode` (lines 221-248). -/
def rct_eth_conn_set_mode (E : ether_protocol) (env : send_cmd_env) (rpmsg_id_counter : Int)
    (rct_eth : rcar_taurus_ether_drv) (eth_ch : Nat) (res_msg : Option taurus_ether_res_msg)
    (mode : Bool) : Option eth_conn_result :=
  rct_eth_conn_command E env rpmsg_id_counter rct_eth eth_ch res_msg
    (fun id =>
      { hdr := { Id := id, Channel := eth_ch, Cmd := E.R_TAURUS_CMD_IOCTL,
                 Par1 := E.ETHER_PROTOCOL_IOC_SET_MODE }
        type := E.ETHER_PROTOCOL_IOC_SET_MODE
        params := taurus_ether_cmd_params.eth_set_mode id eth_ch mode })
    E.set_mode_res

/-- Public command `rct_eth_conn_get_mode` (lines 250-276). -/
def rct_eth_conn_get_mode (E : ether_protocol) (env : send_cmd_env) (rpmsg_id_counter : Int)
    (rct_eth : rcar_taurus_ether_drv) (eth_ch : Nat) (res_msg : Option taurus_ether_res_msg) :
    Option eth_conn_result :=
  rct_eth_conn_command E env rpmsg_id_counter rct_eth eth_ch res_msg
    (fun id =>
      { hdr := { Id := id, Channel := eth_ch, Cmd := E.R_TAURUS_CMD_IOCTL,
                 Par1 := E.ETHER_PROTOCOL_IOC_GET_MODE }
        type := E.ETHER_PROTOCOL_IOC_GET_MODE
        params := taurus_ether_cmd_params.eth_get_mode id eth_ch })
    E.get_mode_res

/-- Public command `rct_eth_conn_get_mac_addr` (lines 278-304). -/
def rct_eth_conn_get_mac_addr (E : ether_protocol) (env : send_cmd_env)
    (rpmsg_id_counter : Int) (rct_eth : rcar_taurus_ether_drv) (eth_ch : Nat)
    (res_msg : Option taurus_ether_res_msg) : Option eth_conn_result :=
  rct_eth_conn_command E env rpmsg_id_counter rct_eth eth_ch res_msg
    (fun id =>
      { hdr := { Id := id, Channel := eth_ch, Cmd := E.R_TAURUS_CMD_IOCTL,
                 Par1 := E.ETHER_PROTOCOL_IOC_GET_PHYS_ADDR }
        type := E.ETHER_PROTOCOL_IOC_GET_PHYS_ADDR
        params := taurus_ether_cmd_params.get_phys id eth_ch })
    E.get_phys_res

/-- Public command `rct_eth_conn_set_mac_addr` (lines 306-333); `mac_addr` is the
caller's buffer, of which `ETH_MACADDR_SIZE` bytes are copied. -/
def rct_eth_conn_set_mac_addr (E : ether_protocol) (env : send_cmd_env)
    (rpmsg_id_counter : Int) (rct_eth : rcar_taurus_ether_drv) (eth_ch : Nat)
    (res_msg : Option taurus_ether_res_msg) (mac_addr : List Nat) : Option eth_conn_result :=
  rct_eth_conn_command E env rpmsg_id_counter rct_eth eth_ch res_msg
    (fun id =>
      { hdr := { Id := id, Channel := eth_ch, Cmd := E.R_TAURUS_CMD_IOCTL,
                 Par1 := E.ETHER_PROTOCOL_IOC_SET_PHYS_ADDR }
        type := E.ETHER_PROTOCOL_IOC_SET_PHYS_ADDR
        params :=
          taurus_ether_cmd_params.set_phys id eth_ch (mac_addr.take E.ETH_MACADDR_SIZE) })
    E.set_phys_res

/-- Public command `rct_eth_conn_provide_tx_buffer` (lines 335-362). -/
def rct_eth_conn_provide_tx_buffer (E : ether_protocol) (env : send_cmd_env)
    (rpmsg_id_counter : Int) (rct_eth : rcar_taurus_ether_drv) (eth_ch : Nat)
    (res_msg : Option taurus_ether_res_msg) (data_len : Nat) : Option eth_conn_result :=
  rct_eth_conn_command E env rpmsg_id_counter rct_eth eth_ch res_msg
    (fun id =>
      { hdr := { Id := id, Channel := eth_ch, Cmd := E.R_TAURUS_CMD_IOCTL,
                 Par1 := E.ETHER_PROTOCOL_IOC_PROVIDE_TX_BUFF }
        type := E.ETHER_PROTOCOL_IOC_PROVIDE_TX_BUFF
        params := taurus_ether_cmd_params.tx_buffer id eth_ch data_len })
    E.tx_buffer_res

/-- Public command `rct_eth_conn_start_xmit` (lines 364-396); `dest_addr` is the
caller's buffer, of which `ETH_MACADDR_SIZE` bytes are copied. -/
def rct_eth_conn_start_xmit (E : ether_protocol) (env : send_cmd_env)
    (rpmsg_id_counter : Int) (rct_eth : rcar_taurus_ether_drv) (eth_ch : Nat)
    (res_msg : Option taurus_ether_res_msg) (buff_idx frame_type data_len : Nat)
    (dest_addr : List Nat) : Option eth_conn_result :=
  rct_eth_conn_command E env rpmsg_id_counter rct_eth eth_ch res_msg
    (fun id =>
      { hdr := { Id := id, Channel := eth_ch, Cmd := E.R_TAURUS_CMD_IOCTL,
                 Par1 := E.ETHER_PROTOCOL_IOC_TRANSMIT }
        type := E.ETHER_PROTOCOL_IOC_TRANSMIT
        params :=
          taurus_ether_cmd_params.transmit id eth_ch buff_idx frame_type true data_len
            (dest_addr.take E.ETH_MACADDR_SIZE) })
    E.transmit_res

/-- Public command `rct_eth_conn_tx_confirm` (lines 398-425). -/
def rct_eth_conn_tx_confirm (E : ether_protocol) (env : send_cmd_env)
    (rpmsg_id_counter : Int) (rct_eth : rcar_taurus_ether_drv) (eth_ch : Nat)
    (res_msg : Option taurus_ether_res_msg) : Option eth_conn_result :=
  rct_eth_conn_command E env rpmsg_id_counter rct_eth eth_ch res_msg
    (fun id =>
      { hdr := { Id := id, Channel := eth_ch, Cmd := E.R_TAURUS_CMD_IOCTL,
                 Par1 := E.ETHER_PROTOCOL_IOC_TX_CONFIRMATION }
        type := E.ETHER_PROTOCOL_IOC_TX_CONFIRMATION
        params := taurus_ether_cmd_params.tx_confirmation id eth_ch })
    E.tx_confirmation_res

/-- The envelopes of `l` that the scan matches with the identifier `id`: the identifier
is `id` and the envelope is not an unsolicited event. -/
def matching (nop id : Nat) (l : List taurus_res_msg) : List taurus_res_msg :=
  l.filter (fun res => decide (res.hdr.Id = id ∧ ¬ (res.hdr.Result = nop ∧ res.hdr.Id = 0)))

/-- An Ethernet protocol for the examples: the outcome codes are ACK 0, NACK 1,
COMPLETE 2, and the `res` field of every member of the result union is its second
word. -/
def demo_ether_protocol : ether_protocol :=
  { R_TAURUS_CMD_NOP := 0, R_TAURUS_CMD_OPEN := 1, R_TAURUS_CMD_CLOSE := 2
    R_TAURUS_CMD_IOCTL := 5, R_TAURUS_RES_NACK := 1, R_TAURUS_RES_COMPLETE := 2
    ETHER_PROTOCOL_OPEN := 61440, ETHER_PROTOCOL_CLOSE := 61441
    ETHER_PROTOCOL_IOC_READ_MII := 61442, ETHER_PROTOCOL_IOC_WRITE_MII := 61443
    ETHER_PROTOCOL_IOC_SET_MODE := 61444, ETHER_PROTOCOL_IOC_GET_MODE := 61445
    ETHER_PROTOCOL_IOC_GET_PHYS_ADDR := 61446, ETHER_PROTOCOL_IOC_SET_PHYS_ADDR := 61447
    ETHER_PROTOCOL_IOC_PROVIDE_TX_BUFF := 61448, ETHER_PROTOCOL_IOC_TRANSMIT := 61449
    ETHER_PROTOCOL_IOC_TX_CONFIRMATION := 61450, ETH_MACADDR_SIZE := 6
    open_res := fun p => p.getD 1 0, close_res := fun p => p.getD 1 0
    read_mii_res := fun p => p.getD 1 0, write_mii_res := fun p => p.getD 1 0
    set_mode_res := fun p => p.getD 1 0, get_mode_res := fun p => p.getD 1 0
    get_phys_res := fun p => p.getD 1 0, set_phys_res := fun p => p.getD 1 0
    tx_buffer_res := fun p => p.getD 1 0, transmit_res := fun p => p.getD 1 0
    tx_confirmation_res := fun p => p.getD 1 0 }

/-- An environment for the examples: both allocations succeed, the send succeeds, no
signal breaks a wait, and the callback processes `ack` before the ack wait ends and
`completed` before the done wait ends. -/
def demo_env (ack completed : List taurus_ether_res_msg) : send_cmd_env :=
  { event := some 8192, result := true, rpmsg_send := 0
    wait_ack := { signal := false, left := 7000 }
    wait_completed := { signal := false, left := 7000 }
    inbound_ack := ack, inbound_completed := completed
    inbound_cleanup := [] }

/-- A command envelope with the given identifier, for the examples. -/
def demo_cmd (id : Nat) : taurus_ether_cmd_msg :=
  { hdr := { Id := id, Channel := 0, Cmd := 1, Par1 := 61440 }, type := 61440
    params := taurus_ether_cmd_params.eth_init id }

/-- A channel with one pending event of another call, for the examples. -/
def demo_chan : rcar_taurus_ether_channel :=
  { ch_id := 0, taurus_event_list_head := [demo_event 4096 3] }

/-- The effect of one inbound envelope on one pending event: none for an unsolicited
event, the body of the scan otherwise. -/
def serve (nop : Nat) (w : taurus_event_list) (res : taurus_res_msg) : taurus_event_list :=
  if res.hdr.Result = nop ∧ res.hdr.Id = 0 then w else (rcar_vivid_cb_match res w []).1

/-- A pending event after the envelopes `m`, all of which the scan matched with it: the
result buffer holds the last of them, `ack` was posted once if the flag was unset, and
`completed` was posted for every envelope that found the flag set. -/
def served (w : taurus_event_list) (m : List taurus_res_msg) : taurus_event_list :=
  { w with
    result := m.getLast?.getD w.result
    ack_received := w.ack_received || !m.isEmpty
    ack := w.ack + (if w.ack_received = false ∧ m ≠ [] then 1 else 0)
    completed := w.completed + (m.length - (if w.ack_received then 0 else 1)) }

/-- The envelopes the scan has matched with the call when its ack wait ends. -/
def send_cmd_env.acks (env : send_cmd_env) (nop id : Nat) : List taurus_res_msg :=
  matching nop id env.inbound_ack

/-- The envelopes the scan has matched with the call when its done wait ends. -/
def send_cmd_env.replies (env : send_cmd_env) (nop id : Nat) : List taurus_res_msg :=
  matching nop id (env.inbound_ack ++ env.inbound_completed)

/-- The step puts a node on the list of pending events. -/
def send_cmd_step.is_list_add : send_cmd_step → Bool
  | send_cmd_step.list_add _ => true
  | _ => false

/-- The step takes a node off the list of pending events. -/
def send_cmd_step.is_list_del : send_cmd_step → Bool
  | send_cmd_step.list_del _ => true
  | _ => false

/-- The environment of a call that the peer rejects: allocations and send succeed, the
ack wait ends on a posted completion, and the result buffer then holds the outcome
`R_TAURUS_RES_NACK`. -/
def send_cmd_env.peer_rejects (env : send_cmd_env) (E : ether_protocol) (id : Nat) : Bool :=
  env.event.isSome && env.result && decide (env.rpmsg_send = 0) && !env.wait_ack.signal &&
    match (env.acks E.R_TAURUS_CMD_NOP id).getLast? with
    | some last => decide (last.hdr.Result = E.R_TAURUS_RES_NACK)
    | none => false

/-- The environment of a call one of whose waits times out: allocations and send
succeed, no signal breaks a wait, and either no envelope is matched before the ack wait
ends, or the ack is not a rejection and no second envelope is matched before the done
wait ends. -/
def send_cmd_env.wait_times_out (env : send_cmd_env) (E : ether_protocol) (id : Nat) : Bool :=
  env.event.isSome && env.result && decide (env.rpmsg_send = 0) && !env.wait_ack.signal &&
    match (env.acks E.R_TAURUS_CMD_NOP id).getLast? with
    | some last =>
      decide (last.hdr.Result ≠ E.R_TAURUS_RES_NACK) && !env.wait_completed.signal &&
        decide ((env.replies E.R_TAURUS_CMD_NOP id).length < 2)
    | none => true

/-- The frame condition on `vivid_fill_hw_slot`, which is not among the sources at hand:
it refills slots of `queue_buf`, and leaves alone the sequence counter, the pending
mask, the buffers already handed over and the wait queue. -/
def camera_protocol.fill_keeps (P : camera_protocol) : Prop :=
  ∀ (v : vivid_v4l2_device) (slot : Nat),
    (P.vivid_fill_hw_slot v slot).sequence = v.sequence ∧
    (P.vivid_fill_hw_slot v slot).buffer_pending = v.buffer_pending ∧
    (P.vivid_fill_hw_slot v slot).done_list = v.done_list ∧
    (P.vivid_fill_hw_slot v slot).wake_ups = v.wake_ups

/-- An unsolicited frame-ready event for the examples: stream 0 and the given slot and
count of empty buffers, in the layout of `demo_camera_protocol`. -/
def demo_frame_ready (slot empty_buf_cnt : Nat) : taurus_camera_res_msg :=
  { hdr := { Id := 0, Per := 0, Channel := 0, Result := 0, Aux := slot * 256 + empty_buf_cnt }
    type := 0, params := [] }

/-- The identifiers returned by `n` consecutive calls of `rct_eth_conn_get_uniq_id`,
first call first, the counter being `rpmsg_id_counter` before the first of them. -/
def rct_eth_conn_get_uniq_id_calls : Nat → Int → List Int
  | 0, _ => []
  | n + 1, rpmsg_id_counter =>
    (rct_eth_conn_get_uniq_id rpmsg_id_counter).1 ::
      rct_eth_conn_get_uniq_id_calls n (rct_eth_conn_get_uniq_id rpmsg_id_counter).2

/-! ## The MFIS interrupt side channel and the address translation -/

/-- EBUSY errno value. -/
def EBUSY : Int := 16

/-- Register offset `IICR(n)` (rcar_mfis_drv.c line 21). -/
def IICR (n : Int) : Int := 0x0400 + n * 0x8

/-- Register offset `IMBR(n)` (rcar_mfis_drv.c line 23). -/
def IMBR (n : Int) : Int := 0x0440 + n * 0x4

/-- Message of the side channel (`struct rcar_mfis_msg`): two `u32`. -/
structure rcar_mfis_msg where
  icr : Nat
  mbr : Nat
deriving DecidableEq, Repr

/-- MFIS channel (`struct rcar_mfis_ch`): the fields the trigger uses. -/
structure rcar_mfis_ch where
  initialized : Bool
  id : Nat
deriving DecidableEq, Repr

/-- MFIS device (`struct rcar_mfis_dev`): the array `channels`, of `NUM_MFIS_CHANNELS`
entries. -/
structure rcar_mfis_dev where
  channels : List rcar_mfis_ch
deriving DecidableEq, Repr

/-- Lookup `rcar_mfis_channel_get` (lines 57-69): the first entry of `channels` that is
initialised and has the identifier `channel`, an `unsigned int`. -/
def rcar_mfis_channel_get (rcmfis_dev : rcar_mfis_dev) (channel : Nat) : Option rcar_mfis_ch :=
  rcmfis_dev.channels.find? (fun ch => ch.initialized && decide (ch.id = channel))

/-- What a call of `rcar_mfis_trigger_interrupt` leaves: the value returned and the
register writes, in order, as pairs of offset and value. -/
structure rcar_mfis_trigger_result where
  ret : Int
  writes : List (Int × Nat)
deriving DecidableEq, Repr

/-- Exported function `rcar_mfis_trigger_interrupt` (lines 74-95).  `rcmfis_dev` is the
global pointer (`none` for NULL, which the lookup dereferences), `reg_read` is what
`rcar_mfis_reg_read` reads at an offset; `channel` is an `int`, converted to
`unsigned int` for the lookup. -/
def rcar_mfis_trigger_interrupt (rcmfis_dev : Option rcar_mfis_dev) (reg_read : Int → Nat)
    (channel : Int) (msg : rcar_mfis_msg) : Option rcar_mfis_trigger_result :=
  match rcmfis_dev with
  | none => none
  | some dev =>
    match rcar_mfis_channel_get dev (to_u32 channel) with
    | none => some { ret := -EINVAL, writes := [] }
    | some _ =>
      let icr := reg_read (IICR channel)
      if icr &&& 0x1 ≠ 0 then
        some { ret := -EBUSY, writes := [] }
      else
        some { ret := 0
               writes := [(IMBR channel, msg.mbr),
                          (IICR channel, ((msg.icr <<< 1) % 2 ^ 32) ||| 1)] }

/-- An MFIS device for the examples: channel 0 initialised, channel 1 not. -/
def demo_mfis_dev : rcar_mfis_dev :=
  { channels := [{ initialized := true, id := 0 }, { initialized := false, id := 1 }] }

/-- Pending events registered one after the other, first one first, each by the
`list_add` of `rct_eth_conn_send_cmd` (line 51) on the list `head`. -/
def register_all (head : List taurus_event_list) (ws : List taurus_event_list) :
    List taurus_event_list :=
  ws.foldl (fun h w => list_add w h) head

/-- Remote processor instance (`struct rcar_cr7_rproc`): the shared region, mapped at
`mem_va` (a non-NULL `void __iomem *`), of device address `mem_da` (`phys_addr_t`, 64
bits) and length `mem_len` (`u64`). -/
structure rcar_cr7_rproc where
  mem_va : Nat
  mem_da : Nat
  mem_len : Nat
deriving DecidableEq, Repr

/-- Address translation `rcar_cr7_da_to_va` (rcar_cr7_remoteproc.c lines 234-244), `none`
for NULL: `da - mem_da` is computed in 64 bits and stored in the `int offset`, which
keeps its low 32 bits as a signed value; `offset + len` is computed in `size_t`
(64 bits). -/
def rcar_cr7_da_to_va (rrproc : rcar_cr7_rproc) (da len : Nat) : Option Nat :=
  let offset : Int := wrap_int (((da : Int) - (rrproc.mem_da : Int)) % 2 ^ 64)
  if offset < 0 ∨ (offset.toNat + len) % 2 ^ 64 > rrproc.mem_len then none
  else some (rrproc.mem_va + offset.toNat)

/-- A remote processor for the examples: 16 MiB at the device address 0x40000000. -/
def demo_rproc : rcar_cr7_rproc :=
  { mem_va := 0xffff800010000000, mem_da := 0x40000000, mem_len := 0x1000000 }

/-! ## Probe and removal of the camera device -/

/-- A stream as probe and removal see it (`struct vivid_v4l2_device`): its channel and
whether `buffer_thread` is set. -/
structure vivid_probe_stream where
  channel : Nat
  buffer_thread : Bool
deriving DecidableEq, Repr

/-- The camera device as probe and removal see it (`struct rcar_vivid_device`): the
count `channel_num` (an `int`) and the array of stream pointers `vivid`, of
`MAX_VIVID_DEVICE_NUM` entries, `none` being NULL. -/
structure rcar_vivid_probe_device where
  channel_num : Int
  vivid : List (Option vivid_probe_stream)
deriving DecidableEq, Repr

/-- The calls of `rcar_vivid_remove` that the model records. -/
inductive rcar_vivid_remove_step where
  | kthread_stop (i : Nat)
  | video_unregister_device (i : Nat)
deriving DecidableEq, Repr

/-- The loop of `rcar_vivid_remove` (rcar-vivid-drv.c lines 119-127) from the index `i`,
with `n` iterations left; `none` when `rvivid->vivid[i]` is NULL or outside the array,
which `vivid->buffer_thread` then reads through. -/
def rcar_vivid_remove_loop (rvivid : rcar_vivid_probe_device) :
    Nat → Nat → Option (List rcar_vivid_remove_step)
  | 0, _ => some []
  | n + 1, i =>
    match rvivid.vivid[i]? with
    | some (some vivid) =>
      match rcar_vivid_remove_loop rvivid n (i + 1) with
      | none => none
      | some rest =>
        some ((if vivid.buffer_thread then [rcar_vivid_remove_step.kthread_stop i] else []) ++
          rcar_vivid_remove_step.video_unregister_device i :: rest)
    | _ => none

/-- Removal `rcar_vivid_remove` (lines 113-129): the loop runs for `i` from 0 while
`i < rvivid->channel_num`. -/
def rcar_vivid_remove (rvivid : rcar_vivid_probe_device) :
    Option (List rcar_vivid_remove_step) :=
  rcar_vivid_remove_loop rvivid rvivid.channel_num.toNat 0

/-- What the environment does to iteration `i` of the loop of probe: whether the
`devm_kzalloc` of the stream succeeds, the values `rcar_vivid_queue_init` and
`rcar_vivid_v4l2_register` return, and whether they leave `buffer_thread` set. -/
structure probe_channel_env where
  alloc : Bool
  queue_init : Int
  v4l2_register : Int
  buffer_thread : Bool
deriving DecidableEq, Repr

/-- The environment of one call of `rcar_vivid_probe`: whether the `devm_kzalloc` of the
device succeeds, the value `vivid_taurus_get_info` returns and the `channel_num` it
leaves in the device, whether `of_find_node_by_path` finds the node, the value
`of_reserved_mem_device_init_by_idx` returns, and the environment of each iteration. -/
structure probe_env where
  alloc : Bool
  get_info : Int
  channel_num : Int
  node : Bool
  reserved_mem : Int
  channels : Nat → probe_channel_env

/-- How the body of `rcar_vivid_probe` ends: by a `return` of its own, or by a jump to
the label `error` with the value `ret` holds and the device as it is then. -/
inductive probe_exit where
  | returned (ret : Int)
  | error (ret : Int) (rvivid : rcar_vivid_probe_device)
deriving DecidableEq, Repr

/-- The loop of `rcar_vivid_probe` (lines 182-213) from the index `i`, with `n`
iterations left. -/
def rcar_vivid_probe_loop (env : probe_env) :
    Nat → Nat → rcar_vivid_probe_device → probe_exit
  | 0, _, _ => probe_exit.returned 0
  | n + 1, i, rvivid =>
    if (env.channels i).alloc = false then
      probe_exit.error (-ENOMEM) rvivid
    else if (env.channels i).queue_init ≠ 0 then
      probe_exit.error (env.channels i).queue_init rvivid
    else if (env.channels i).v4l2_register ≠ 0 then
      probe_exit.error (env.channels i).v4l2_register rvivid
    else
      rcar_vivid_probe_loop env n (i + 1)
        { rvivid with
          vivid := rvivid.vivid.set i
            (some { channel := i, buffer_thread := (env.channels i).buffer_thread }) }

/-- The body of `rcar_vivid_probe` (lines 131-214) up to its `return` or its jump to
`error`.  The device is zero-filled by `devm_kzalloc`, so that every entry of `vivid` is
NULL until the loop stores a stream in it; `MAX` is `MAX_VIVID_DEVICE_NUM`. -/
def rcar_vivid_probe_body (MAX : Nat) (env : probe_env) : probe_exit :=
  if env.alloc = false then
    probe_exit.returned (-ENOMEM)
  else
    let rvivid : rcar_vivid_probe_device :=
      { channel_num := env.channel_num, vivid := List.replicate MAX none }
    if env.get_info ≠ 0 ∨ env.channel_num > (MAX : Int) then
      probe_exit.error env.get_info rvivid
    else if env.node = false then
      probe_exit.error (-ENOMEM) rvivid
    else if env.reserved_mem ≠ 0 then
      probe_exit.error env.reserved_mem rvivid
    else
      rcar_vivid_probe_loop env env.channel_num.toNat 0 rvivid

/-- Probe `rcar_vivid_probe` (lines 131-218): the body, then at the label `error` the
call of `rcar_vivid_remove` and the return of `ret`; `none` when the removal reads
through a NULL stream pointer. -/
def rcar_vivid_probe (MAX : Nat) (env : probe_env) : Option Int :=
  match rcar_vivid_probe_body MAX env with
  | probe_exit.returned ret => some ret
  | probe_exit.error ret rvivid =>
    match rcar_vivid_remove rvivid with
    | none => none
    | some _ => some ret

/-- An environment of probe for the examples: every call succeeds, and
`vivid_taurus_get_info` reports `channel_num` cameras. -/
def demo_probe_env (channel_num : Int) : probe_env :=
  { alloc := true, get_info := 0, channel_num := channel_num, node := true, reserved_mem := 0
    channels := fun _ => { alloc := true, queue_init := 0, v4l2_register := 0,
                           buffer_thread := false } }

/-! ## The scan of the pending events -/

theorem list_for_each_prev_length {α σ : Type} (body : α → σ → α × σ) (l : List α) (s : σ) :
    (list_for_each_prev body l s).1.length = l.length := by
  induction l with
  | nil => rfl
  | cons x xs ih => simp [list_for_each_prev, ih]

theorem rcar_vivid_cb_match_fst (res : taurus_res_msg) (event : taurus_event_list)
    (fired : List (Nat × taurus_signal)) :
    (rcar_vivid_cb_match res event fired).1 = (rcar_vivid_cb_match res event []).1 := by
  unfold rcar_vivid_cb_match
  by_cases h : event.id = res.hdr.Id <;> by_cases h2 : event.ack_received = true <;>
    simp [h, h2]

theorem scan_fst_eq_map (res : taurus_res_msg) (l : List taurus_event_list)
    (s : List (Nat × taurus_signal)) :
    (list_for_each_prev (rcar_vivid_cb_match res) l s).1
      = l.map (fun event => (rcar_vivid_cb_match res event []).1) := by
  induction l with
  | nil => rfl
  | cons x xs ih =>
    simp only [list_for_each_prev, List.map_cons, ih]
    rw [rcar_vivid_cb_match_fst]

theorem rcar_vivid_cb_scan_get? (res : taurus_res_msg) (l : List taurus_event_list) (i : Nat) :
    (rcar_vivid_cb_scan l res).1[i]?
      = (l[i]?).map (fun event => (rcar_vivid_cb_match res event []).1) := by
  simp [rcar_vivid_cb_scan, scan_fst_eq_map]

theorem rcar_vivid_cb_reply (P : camera_protocol) (now : Nat) (rvivid : rcar_vivid_device)
    (res : taurus_camera_res_msg)
    (h : ¬ (res.hdr.Result = P.R_TAURUS_CMD_NOP ∧ res.hdr.Id = 0)) :
    rcar_vivid_cb P now rvivid res
      = some { ret := 0
               rvivid := { rvivid with
                 taurus_event_list_head := (rcar_vivid_cb_scan rvivid.taurus_event_list_head res).1 }
               fired := (rcar_vivid_cb_scan rvivid.taurus_event_list_head res).2 } := by
  simp only [rcar_vivid_cb, if_neg h]

theorem rcar_vivid_cb_event_frame (P : camera_protocol) (now : Nat) (rvivid : rcar_vivid_device)
    (res : taurus_camera_res_msg) (r : rcar_vivid_cb_result)
    (h : res.hdr.Result = P.R_TAURUS_CMD_NOP ∧ res.hdr.Id = 0)
    (hr : rcar_vivid_cb P now rvivid res = some r) :
    r.ret = 0 ∧ r.rvivid.taurus_event_list_head = rvivid.taurus_event_list_head ∧ r.fired = [] := by
  simp only [rcar_vivid_cb, if_pos h] at hr
  split at hr
  · exact absurd hr (by simp)
  · split at hr
    · cases hr; exact ⟨rfl, rfl, rfl⟩
    · split at hr
      · cases hr; exact ⟨rfl, rfl, rfl⟩
      · split at hr
        · exact absurd hr (by simp)
        · cases hr; exact ⟨rfl, rfl, rfl⟩

theorem rcar_vivid_cb_frame_isSome (P : camera_protocol) (now : Nat) (v : vivid_v4l2_device)
    (slot empty_buf_cnt : Nat) (h : slot < v.queue_buf.length) :
    ∃ v1, rcar_vivid_cb_frame P now v slot empty_buf_cnt = some v1 := by
  unfold rcar_vivid_cb_frame
  rw [List.getElem?_eq_getElem h]
  exact ⟨_, rfl⟩

theorem rcar_vivid_cb_event_returns (P : camera_protocol) (now : Nat)
    (rvivid : rcar_vivid_device) (res : taurus_camera_res_msg)
    (h : res.hdr.Result = P.R_TAURUS_CMD_NOP ∧ res.hdr.Id = 0)
    (hin : frame_ready_in_range P rvivid res = true) :
    ∃ r, rcar_vivid_cb P now rvivid res = some r := by
  simp only [rcar_vivid_cb, if_pos h]
  unfold frame_ready_in_range at hin
  cases hv : rvivid.vivid[P.TAURUS_CAMERA_EVT_CHANNEL res.hdr.Aux]? with
  | none => simp [hv] at hin
  | some v =>
    simp only [hv] at hin ⊢
    by_cases h1 : v.state = vivid_dma_state.STOPPED
    · simp [h1]
    · by_cases h2 : v.state = vivid_dma_state.STOPPING
      · simp [h2]
      · simp only [h1, h2, decide_False, Bool.false_or, decide_eq_true_eq] at hin
        obtain ⟨v1, hv1⟩ := rcar_vivid_cb_frame_isSome P now v _
          (P.TAURUS_CAMERA_EVT_FRAME_READY_EMPTY_BUF res.hdr.Aux) hin
        simp [h1, h2, hv1]

/-- The completion the scan posts on a matching pending event. -/
theorem rcar_vivid_cb_match_snd (res : taurus_res_msg) (event : taurus_event_list)
    (fired : List (Nat × taurus_signal)) :
    (rcar_vivid_cb_match res event fired).2
      = fired ++ (if event.id = res.hdr.Id then
          [(event.addr, if event.ack_received then taurus_signal.completed else taurus_signal.ack)]
        else []) := by
  unfold rcar_vivid_cb_match
  by_cases h : event.id = res.hdr.Id <;> by_cases h2 : event.ack_received = true <;>
    simp [h, h2]

theorem scan_snd_eq (res : taurus_res_msg) (l : List taurus_event_list)
    (s : List (Nat × taurus_signal)) :
    (list_for_each_prev (rcar_vivid_cb_match res) l s).2
      = s ++ ((l.filter (fun w => decide (w.id = res.hdr.Id))).reverse.map
          (fun w => (w.addr,
            if w.ack_received then taurus_signal.completed else taurus_signal.ack))) := by
  induction l with
  | nil => simp [list_for_each_prev]
  | cons x xs ih =>
    simp only [list_for_each_prev, rcar_vivid_cb_match_snd, ih]
    by_cases h : x.id = res.hdr.Id
    · simp [List.filter_cons, h]
    · simp [List.filter_cons, h]

theorem rcar_vivid_cb_match_addr_id (res : taurus_res_msg) (event : taurus_event_list) :
    (rcar_vivid_cb_match res event []).1.addr = event.addr ∧
      (rcar_vivid_cb_match res event []).1.id = event.id := by
  unfold rcar_vivid_cb_match
  by_cases h : event.id = res.hdr.Id <;> by_cases h2 : event.ack_received = true <;>
    simp [h, h2]

theorem rcar_vivid_cb_match_other (res : taurus_res_msg) (event : taurus_event_list)
    (h : event.id ≠ res.hdr.Id) : (rcar_vivid_cb_match res event []).1 = event := by
  simp [rcar_vivid_cb_match, h]

theorem rcar_vivid_cb_scan_addr (res : taurus_res_msg) (l : List taurus_event_list) :
    (rcar_vivid_cb_scan l res).1.map (fun w => w.addr) = l.map (fun w => w.addr) := by
  simp only [rcar_vivid_cb_scan, scan_fst_eq_map, List.map_map]
  apply List.map_congr_left
  intro w _
  exact (rcar_vivid_cb_match_addr_id res w).1

theorem rcar_vivid_cb_scan_id (res : taurus_res_msg) (l : List taurus_event_list) :
    (rcar_vivid_cb_scan l res).1.map (fun w => w.id) = l.map (fun w => w.id) := by
  simp only [rcar_vivid_cb_scan, scan_fst_eq_map, List.map_map]
  apply List.map_congr_left
  intro w _
  exact (rcar_vivid_cb_match_addr_id res w).2

/-! ## The list of pending events during a call -/

theorem taurus_dispatch_cons (nop : Nat) (w : taurus_event_list)
    (rest : List taurus_event_list) (res : taurus_res_msg) :
    taurus_dispatch nop (w :: rest) res = serve nop w res :: taurus_dispatch nop rest res := by
  unfold taurus_dispatch serve
  by_cases h : res.hdr.Result = nop ∧ res.hdr.Id = 0
  · simp [h]
  · simp [h, rcar_vivid_cb_scan, scan_fst_eq_map]

theorem taurus_dispatch_eq_map (nop : Nat) (head : List taurus_event_list)
    (res : taurus_res_msg) :
    taurus_dispatch nop head res = head.map (fun w => serve nop w res) := by
  induction head with
  | nil => simp [taurus_dispatch, rcar_vivid_cb_scan, list_for_each_prev]
  | cons w rest ih => rw [taurus_dispatch_cons, ih, List.map_cons]

theorem rcar_vivid_cb_head_eq_dispatch (P : camera_protocol) (now : Nat)
    (rvivid : rcar_vivid_device) (res : taurus_camera_res_msg) (r : rcar_vivid_cb_result)
    (hr : rcar_vivid_cb P now rvivid res = some r) :
    r.rvivid.taurus_event_list_head
      = taurus_dispatch P.R_TAURUS_CMD_NOP rvivid.taurus_event_list_head res := by
  by_cases hev : res.hdr.Result = P.R_TAURUS_CMD_NOP ∧ res.hdr.Id = 0
  · rw [(rcar_vivid_cb_event_frame P now rvivid res r hev hr).2.1]
    simp [taurus_dispatch, hev]
  · rw [rcar_vivid_cb_reply P now rvivid res hev] at hr
    cases hr
    simp [taurus_dispatch, hev]

theorem serve_addr_id (nop : Nat) (w : taurus_event_list) (res : taurus_res_msg) :
    (serve nop w res).addr = w.addr ∧ (serve nop w res).id = w.id := by
  unfold serve
  split
  · exact ⟨rfl, rfl⟩
  · exact rcar_vivid_cb_match_addr_id res w

theorem taurus_dispatch_fold_addr_id (nop : Nat) (l : List taurus_res_msg)
    (head : List taurus_event_list) :
    (l.foldl (taurus_dispatch nop) head).map (fun w => w.addr) = head.map (fun w => w.addr) ∧
    (l.foldl (taurus_dispatch nop) head).map (fun w => w.id) = head.map (fun w => w.id) := by
  induction l generalizing head with
  | nil => exact ⟨rfl, rfl⟩
  | cons res l ih =>
    simp only [List.foldl_cons]
    obtain ⟨h1, h2⟩ := ih (taurus_dispatch nop head res)
    rw [h1, h2, taurus_dispatch_eq_map]
    simp only [List.map_map]
    constructor
    · exact List.map_congr_left (fun w _ => (serve_addr_id nop w res).1)
    · exact List.map_congr_left (fun w _ => (serve_addr_id nop w res).2)

theorem pending_call_inbound_eq (nop : Nat) (st : pending_call) (res : taurus_res_msg) :
    st.inbound nop res
      = { event := serve nop st.event res, others := taurus_dispatch nop st.others res } := by
  simp [pending_call.inbound, pending_call.head, list_add, taurus_dispatch_cons]

theorem pending_call_inbound_all_eq (nop : Nat) (l : List taurus_res_msg) (st : pending_call) :
    st.inbound_all nop l
      = { event := l.foldl (serve nop) st.event
          others := l.foldl (taurus_dispatch nop) st.others } := by
  induction l generalizing st with
  | nil => rfl
  | cons res l ih =>
    simp only [pending_call.inbound_all, List.foldl_cons] at ih ⊢
    rw [ih, pending_call_inbound_eq]

theorem served_nil (w : taurus_event_list) : served w [] = w := by
  cases w
  simp [served]

theorem serve_fold_eq_served (nop : Nat) (l : List taurus_res_msg) (w : taurus_event_list) :
    l.foldl (serve nop) w = served w (matching nop w.id l) := by
  induction l generalizing w with
  | nil => simp [matching, served_nil]
  | cons res l ih =>
    simp only [List.foldl_cons]
    rw [ih, (serve_addr_id nop w res).2]
    by_cases hm : res.hdr.Id = w.id ∧ ¬ (res.hdr.Result = nop ∧ res.hdr.Id = 0)
    · have hs : serve nop w res
          = { w with result := res, ack_received := true
                     ack := w.ack + (if w.ack_received then 0 else 1)
                     completed := w.completed + (if w.ack_received then 1 else 0) } := by
        unfold serve rcar_vivid_cb_match
        cases hw : w.ack_received <;> simp [hm.2, hm.1.symm, hw, complete]
      have hmm : matching nop w.id (res :: l) = res :: matching nop w.id l :=
        List.filter_cons_of_pos (decide_eq_true hm)
      rw [hmm, hs]
      cases hw : w.ack_received <;> cases hl : matching nop w.id l <;>
        simp [served, hw, hl, List.getLast?_cons_cons]
      all_goals rw [List.getLast?_eq_getLast _ (List.cons_ne_nil _ _)]
      · rfl
      · exact ⟨rfl, by omega⟩
    · have hs : serve nop w res = w := by
        unfold serve rcar_vivid_cb_match
        by_cases hev : res.hdr.Result = nop ∧ res.hdr.Id = 0
        · simp [hev]
        · have : ¬ w.id = res.hdr.Id := fun h => hm ⟨h.symm, hev⟩
          simp [hev, this]
      have hmm : matching nop w.id (res :: l) = matching nop w.id l :=
        List.filter_cons_of_neg (by simpa using hm)
      rw [hmm, hs]

theorem cleanup_3_eq (nop : Nat) (env : send_cmd_env) (st : pending_call) (ret : Int)
    (res_msg : taurus_ether_res_msg) (steps : List send_cmd_step) :
    rct_eth_conn_send_cmd_cleanup_3 nop env st ret res_msg steps
      = { ret := ret, res_msg := res_msg
          taurus_event_list_head := env.inbound_cleanup.foldl (taurus_dispatch nop) st.others
          steps := steps ++ [send_cmd_step.list_del st.event.addr,
            send_cmd_step.devm_kfree_result, send_cmd_step.devm_kfree_event] } := by
  simp [rct_eth_conn_send_cmd_cleanup_3, pending_call_inbound_all_eq, serve_fold_eq_served,
    served]

/-! ## The paths of `rct_eth_conn_send_cmd` -/

theorem matching_append (nop id : Nat) (l1 l2 : List taurus_res_msg) :
    matching nop id (l1 ++ l2) = matching nop id l1 ++ matching nop id l2 := by
  simp [matching]

theorem wait_value_pos (left : Nat) :
    (if left = 0 then (1 : Int) else (left : Int)) ≠ -ERESTARTSYS ∧
    (if left = 0 then (1 : Int) else (left : Int)) ≠ 0 := by
  unfold ERESTARTSYS
  split <;> omega

theorem wait_interrupted (done : Nat) (w : wait_env) (h : w.signal = true) :
    (wait_for_completion_interruptible_timeout done w).1 = -ERESTARTSYS := by
  by_cases hd : done = 0 <;>
    simp [wait_for_completion_interruptible_timeout, h, hd, ERESTARTSYS]

theorem wait_timed_out (w : wait_env) (h : w.signal = false) :
    (wait_for_completion_interruptible_timeout 0 w).1 = 0 := by
  simp [wait_for_completion_interruptible_timeout, h]

theorem wait_signalled (done : Nat) (w : wait_env) (h : w.signal = false) (hd : done ≠ 0) :
    (wait_for_completion_interruptible_timeout done w).1 ≠ -ERESTARTSYS ∧
    (wait_for_completion_interruptible_timeout done w).1 ≠ 0 := by
  simp only [wait_for_completion_interruptible_timeout, h, hd, Bool.false_eq_true, if_false,
    Nat.cast_eq_zero]
  exact wait_value_pos w.left

theorem send_cmd_completed_interrupted (nop : Nat) (env : send_cmd_env) (st : pending_call)
    (res_msg : taurus_ether_res_msg) (steps : List send_cmd_step)
    (hsig : env.wait_completed.signal = true) :
    rct_eth_conn_send_cmd_wait_completed nop env st res_msg steps
      = { ret := -ERESTARTSYS, res_msg := res_msg
          taurus_event_list_head :=
            (env.inbound_completed ++ env.inbound_cleanup).foldl (taurus_dispatch nop) st.others
          steps := steps ++ [send_cmd_step.wait_completed, send_cmd_step.list_del st.event.addr,
            send_cmd_step.devm_kfree_result, send_cmd_step.devm_kfree_event] } := by
  simp only [rct_eth_conn_send_cmd_wait_completed, wait_interrupted _ _ hsig, if_true,
    cleanup_3_eq, pending_call_inbound_all_eq, serve_fold_eq_served]
  simp [served]

theorem send_cmd_completed_timed_out (nop : Nat) (env : send_cmd_env) (st : pending_call)
    (res_msg : taurus_ether_res_msg) (steps : List send_cmd_step)
    (hsig : env.wait_completed.signal = false)
    (hnone : (served st.event (matching nop st.event.id env.inbound_completed)).completed = 0) :
    rct_eth_conn_send_cmd_wait_completed nop env st res_msg steps
      = { ret := -ETIMEDOUT, res_msg := res_msg
          taurus_event_list_head :=
            (env.inbound_completed ++ env.inbound_cleanup).foldl (taurus_dispatch nop) st.others
          steps := steps ++ [send_cmd_step.wait_completed, send_cmd_step.list_del st.event.addr,
            send_cmd_step.devm_kfree_result, send_cmd_step.devm_kfree_event] } := by
  have hne : (0 : Int) ≠ -ERESTARTSYS := by decide
  simp only [rct_eth_conn_send_cmd_wait_completed, cleanup_3_eq, pending_call_inbound_all_eq,
    serve_fold_eq_served, hnone, wait_timed_out _ hsig, if_neg hne, if_true]
  simp [served]

theorem send_cmd_completed_signalled (nop : Nat) (env : send_cmd_env) (st : pending_call)
    (res_msg : taurus_ether_res_msg) (steps : List send_cmd_step)
    (hsig : env.wait_completed.signal = false)
    (hsome : (served st.event (matching nop st.event.id env.inbound_completed)).completed ≠ 0) :
    rct_eth_conn_send_cmd_wait_completed nop env st res_msg steps
      = { ret := 0
          res_msg := (served st.event (matching nop st.event.id env.inbound_completed)).result
          taurus_event_list_head :=
            (env.inbound_completed ++ env.inbound_cleanup).foldl (taurus_dispatch nop) st.others
          steps := steps ++ [send_cmd_step.wait_completed, send_cmd_step.memcpy_res_msg,
            send_cmd_step.list_del st.event.addr, send_cmd_step.devm_kfree_result,
            send_cmd_step.devm_kfree_event] } := by
  obtain ⟨h1, h2⟩ := wait_signalled _ _ hsig hsome
  simp only [rct_eth_conn_send_cmd_wait_completed, cleanup_3_eq, pending_call_inbound_all_eq,
    serve_fold_eq_served, if_neg h1, if_neg h2]
  simp [served]

theorem send_cmd_ack_phase_interrupted (E : ether_protocol) (env : send_cmd_env)
    (st : pending_call) (res_msg : taurus_ether_res_msg) (steps : List send_cmd_step)
    (hsig : env.wait_ack.signal = true) :
    rct_eth_conn_send_cmd_wait_ack E env st res_msg steps
      = { ret := -ERESTARTSYS, res_msg := res_msg
          taurus_event_list_head :=
            (env.inbound_ack ++ env.inbound_cleanup).foldl
              (taurus_dispatch E.R_TAURUS_CMD_NOP) st.others
          steps := steps ++ [send_cmd_step.wait_ack, send_cmd_step.list_del st.event.addr,
            send_cmd_step.devm_kfree_result, send_cmd_step.devm_kfree_event] } := by
  simp only [rct_eth_conn_send_cmd_wait_ack, wait_interrupted _ _ hsig, if_true,
    cleanup_3_eq, pending_call_inbound_all_eq, serve_fold_eq_served]
  simp [served]

theorem send_cmd_ack_phase_timed_out (E : ether_protocol) (env : send_cmd_env)
    (st : pending_call) (res_msg : taurus_ether_res_msg) (steps : List send_cmd_step)
    (hsig : env.wait_ack.signal = false)
    (hnone : (served st.event
      (matching E.R_TAURUS_CMD_NOP st.event.id env.inbound_ack)).ack = 0) :
    rct_eth_conn_send_cmd_wait_ack E env st res_msg steps
      = { ret := -ETIMEDOUT, res_msg := res_msg
          taurus_event_list_head :=
            (env.inbound_ack ++ env.inbound_cleanup).foldl
              (taurus_dispatch E.R_TAURUS_CMD_NOP) st.others
          steps := steps ++ [send_cmd_step.wait_ack, send_cmd_step.list_del st.event.addr,
            send_cmd_step.devm_kfree_result, send_cmd_step.devm_kfree_event] } := by
  have hne : (0 : Int) ≠ -ERESTARTSYS := by decide
  simp only [rct_eth_conn_send_cmd_wait_ack, cleanup_3_eq, pending_call_inbound_all_eq,
    serve_fold_eq_served, hnone, wait_timed_out _ hsig, if_neg hne, if_true]
  simp [served]

theorem send_cmd_ack_phase_rejected (E : ether_protocol) (env : send_cmd_env)
    (st : pending_call) (res_msg : taurus_ether_res_msg) (steps : List send_cmd_step)
    (hsig : env.wait_ack.signal = false)
    (hsome : (served st.event
      (matching E.R_TAURUS_CMD_NOP st.event.id env.inbound_ack)).ack ≠ 0)
    (hnack : (served st.event
      (matching E.R_TAURUS_CMD_NOP st.event.id env.inbound_ack)).result.hdr.Result
        = E.R_TAURUS_RES_NACK) :
    rct_eth_conn_send_cmd_wait_ack E env st res_msg steps
      = { ret := -EINVAL, res_msg := res_msg
          taurus_event_list_head :=
            (env.inbound_ack ++ env.inbound_cleanup).foldl
              (taurus_dispatch E.R_TAURUS_CMD_NOP) st.others
          steps := steps ++ [send_cmd_step.wait_ack, send_cmd_step.list_del st.event.addr,
            send_cmd_step.devm_kfree_result, send_cmd_step.devm_kfree_event] } := by
  obtain ⟨h1, h2⟩ := wait_signalled _ _ hsig hsome
  simp only [rct_eth_conn_send_cmd_wait_ack, cleanup_3_eq, pending_call_inbound_all_eq,
    serve_fold_eq_served, if_neg h1, if_neg h2, hnack, if_true]
  simp [served]

theorem send_cmd_ack_phase_acknowledged (E : ether_protocol) (env : send_cmd_env)
    (st : pending_call) (res_msg : taurus_ether_res_msg) (steps : List send_cmd_step)
    (hsig : env.wait_ack.signal = false)
    (hsome : (served st.event
      (matching E.R_TAURUS_CMD_NOP st.event.id env.inbound_ack)).ack ≠ 0)
    (hnack : (served st.event
      (matching E.R_TAURUS_CMD_NOP st.event.id env.inbound_ack)).result.hdr.Result
        ≠ E.R_TAURUS_RES_NACK) :
    rct_eth_conn_send_cmd_wait_ack E env st res_msg steps
      = rct_eth_conn_send_cmd_wait_completed E.R_TAURUS_CMD_NOP env
          { event :=
              { served st.event (matching E.R_TAURUS_CMD_NOP st.event.id env.inbound_ack) with
                ack := (served st.event
                  (matching E.R_TAURUS_CMD_NOP st.event.id env.inbound_ack)).ack - 1 }
            others := env.inbound_ack.foldl (taurus_dispatch E.R_TAURUS_CMD_NOP) st.others }
          res_msg (steps ++ [send_cmd_step.wait_ack]) := by
  obtain ⟨h1, h2⟩ := wait_signalled _ _ hsig hsome
  simp only [rct_eth_conn_send_cmd_wait_ack, pending_call_inbound_all_eq,
    serve_fold_eq_served, if_neg h1, if_neg h2, if_neg hnack]
  simp [wait_for_completion_interruptible_timeout, hsome]

theorem send_cmd_sent (E : ether_protocol) (env : send_cmd_env)
    (chan : rcar_taurus_ether_channel) (cmd_msg : taurus_ether_cmd_msg)
    (res_msg : taurus_ether_res_msg) (addr : Nat)
    (hevent : env.event = some addr) (hresult : env.result = true)
    (hsend : env.rpmsg_send = 0) :
    rct_eth_conn_send_cmd E env chan cmd_msg res_msg
      = rct_eth_conn_send_cmd_wait_ack E env
          { event := { addr := addr, id := cmd_msg.hdr.Id, result := zeroed_res_msg, ack := 0,
                       ack_received := false, completed := 0 }
            others := chan.taurus_event_list_head }
          res_msg [send_cmd_step.list_add addr, send_cmd_step.rpmsg_send cmd_msg] := by
  simp [rct_eth_conn_send_cmd, hevent, hresult, hsend]

theorem send_cmd_ack_interrupted (E : ether_protocol) (env : send_cmd_env)
    (chan : rcar_taurus_ether_channel) (cmd_msg : taurus_ether_cmd_msg)
    (res_msg : taurus_ether_res_msg) (addr : Nat)
    (hevent : env.event = some addr) (hresult : env.result = true)
    (hsend : env.rpmsg_send = 0) (hsig : env.wait_ack.signal = true) :
    rct_eth_conn_send_cmd E env chan cmd_msg res_msg
      = { ret := -ERESTARTSYS, res_msg := res_msg
          taurus_event_list_head :=
            (env.inbound_ack ++ env.inbound_cleanup).foldl
              (taurus_dispatch E.R_TAURUS_CMD_NOP) chan.taurus_event_list_head
          steps := [send_cmd_step.list_add addr, send_cmd_step.rpmsg_send cmd_msg,
            send_cmd_step.wait_ack, send_cmd_step.list_del addr,
            send_cmd_step.devm_kfree_result, send_cmd_step.devm_kfree_event] } := by
  rw [send_cmd_sent E env chan cmd_msg res_msg addr hevent hresult hsend,
    send_cmd_ack_phase_interrupted E env _ res_msg _ hsig]
  rfl

theorem send_cmd_ack_timed_out (E : ether_protocol) (env : send_cmd_env)
    (chan : rcar_taurus_ether_channel) (cmd_msg : taurus_ether_cmd_msg)
    (res_msg : taurus_ether_res_msg) (addr : Nat)
    (hevent : env.event = some addr) (hresult : env.result = true)
    (hsend : env.rpmsg_send = 0) (hsig : env.wait_ack.signal = false)
    (hm : env.acks E.R_TAURUS_CMD_NOP cmd_msg.hdr.Id = []) :
    rct_eth_conn_send_cmd E env chan cmd_msg res_msg
      = { ret := -ETIMEDOUT, res_msg := res_msg
          taurus_event_list_head :=
            (env.inbound_ack ++ env.inbound_cleanup).foldl
              (taurus_dispatch E.R_TAURUS_CMD_NOP) chan.taurus_event_list_head
          steps := [send_cmd_step.list_add addr, send_cmd_step.rpmsg_send cmd_msg,
            send_cmd_step.wait_ack, send_cmd_step.list_del addr,
            send_cmd_step.devm_kfree_result, send_cmd_step.devm_kfree_event] } := by
  simp only [send_cmd_env.acks] at hm
  rw [send_cmd_sent E env chan cmd_msg res_msg addr hevent hresult hsend,
    send_cmd_ack_phase_timed_out E env _ res_msg _ hsig (by simp [served, hm])]
  rfl

theorem acks_ne_nil (env : send_cmd_env) (nop id : Nat) (last : taurus_res_msg)
    (hlast : (env.acks nop id).getLast? = some last) :
    matching nop id env.inbound_ack ≠ [] := by
  intro h
  simp [send_cmd_env.acks, h] at hlast

theorem send_cmd_rejected (E : ether_protocol) (env : send_cmd_env)
    (chan : rcar_taurus_ether_channel) (cmd_msg : taurus_ether_cmd_msg)
    (res_msg : taurus_ether_res_msg) (addr : Nat) (last : taurus_res_msg)
    (hevent : env.event = some addr) (hresult : env.result = true)
    (hsend : env.rpmsg_send = 0) (hsig : env.wait_ack.signal = false)
    (hlast : (env.acks E.R_TAURUS_CMD_NOP cmd_msg.hdr.Id).getLast? = some last)
    (hnack : last.hdr.Result = E.R_TAURUS_RES_NACK) :
    rct_eth_conn_send_cmd E env chan cmd_msg res_msg
      = { ret := -EINVAL, res_msg := res_msg
          taurus_event_list_head :=
            (env.inbound_ack ++ env.inbound_cleanup).foldl
              (taurus_dispatch E.R_TAURUS_CMD_NOP) chan.taurus_event_list_head
          steps := [send_cmd_step.list_add addr, send_cmd_step.rpmsg_send cmd_msg,
            send_cmd_step.wait_ack, send_cmd_step.list_del addr,
            send_cmd_step.devm_kfree_result, send_cmd_step.devm_kfree_event] } := by
  have hm := acks_ne_nil env _ _ last hlast
  simp only [send_cmd_env.acks] at hlast
  rw [send_cmd_sent E env chan cmd_msg res_msg addr hevent hresult hsend,
    send_cmd_ack_phase_rejected E env _ res_msg _ hsig (by simp [served, hm])
      (by simp [served, hlast, hnack])]
  rfl

theorem send_cmd_acknowledged (E : ether_protocol) (env : send_cmd_env)
    (chan : rcar_taurus_ether_channel) (cmd_msg : taurus_ether_cmd_msg)
    (res_msg : taurus_ether_res_msg) (addr : Nat) (last : taurus_res_msg)
    (hevent : env.event = some addr) (hresult : env.result = true)
    (hsend : env.rpmsg_send = 0) (hsig : env.wait_ack.signal = false)
    (hlast : (env.acks E.R_TAURUS_CMD_NOP cmd_msg.hdr.Id).getLast? = some last)
    (hnack : last.hdr.Result ≠ E.R_TAURUS_RES_NACK) :
    rct_eth_conn_send_cmd E env chan cmd_msg res_msg
      = rct_eth_conn_send_cmd_wait_completed E.R_TAURUS_CMD_NOP env
          { event :=
              { addr := addr, id := cmd_msg.hdr.Id, result := last, ack := 0
                ack_received := true
                completed := (env.acks E.R_TAURUS_CMD_NOP cmd_msg.hdr.Id).length - 1 }
            others := env.inbound_ack.foldl (taurus_dispatch E.R_TAURUS_CMD_NOP)
              chan.taurus_event_list_head }
          res_msg [send_cmd_step.list_add addr, send_cmd_step.rpmsg_send cmd_msg,
            send_cmd_step.wait_ack] := by
  have hm := acks_ne_nil env _ _ last hlast
  simp only [send_cmd_env.acks] at hlast ⊢
  rw [send_cmd_sent E env chan cmd_msg res_msg addr hevent hresult hsend,
    send_cmd_ack_phase_acknowledged E env _ res_msg _ hsig (by simp [served, hm])
      (by simp [served, hlast, hnack])]
  have hemp : (matching E.R_TAURUS_CMD_NOP cmd_msg.hdr.Id env.inbound_ack).isEmpty = false := by
    simpa using hm
  simp [served, hm, hlast, hemp]

theorem acks_length_pos (env : send_cmd_env) (nop id : Nat) (last : taurus_res_msg)
    (hlast : (env.acks nop id).getLast? = some last) : 0 < (env.acks nop id).length :=
  List.length_pos.mpr (acks_ne_nil env nop id last hlast)

theorem replies_length (env : send_cmd_env) (nop id : Nat) :
    (env.replies nop id).length
      = (env.acks nop id).length + (matching nop id env.inbound_completed).length := by
  simp [send_cmd_env.replies, send_cmd_env.acks, matching_append]

theorem replies_getLast (env : send_cmd_env) (nop id : Nat) (last : taurus_res_msg)
    (hlast : (env.acks nop id).getLast? = some last) :
    (env.replies nop id).getLast?.getD zeroed_res_msg
      = (matching nop id env.inbound_completed).getLast?.getD last := by
  simp only [send_cmd_env.acks] at hlast
  simp only [send_cmd_env.replies, matching_append, List.getLast?_append, hlast]
  cases (matching nop id env.inbound_completed).getLast? <;> simp

theorem send_cmd_done_interrupted (E : ether_protocol) (env : send_cmd_env)
    (chan : rcar_taurus_ether_channel) (cmd_msg : taurus_ether_cmd_msg)
    (res_msg : taurus_ether_res_msg) (addr : Nat) (last : taurus_res_msg)
    (hevent : env.event = some addr) (hresult : env.result = true)
    (hsend : env.rpmsg_send = 0) (hsig : env.wait_ack.signal = false)
    (hlast : (env.acks E.R_TAURUS_CMD_NOP cmd_msg.hdr.Id).getLast? = some last)
    (hnack : last.hdr.Result ≠ E.R_TAURUS_RES_NACK)
    (hsig2 : env.wait_completed.signal = true) :
    rct_eth_conn_send_cmd E env chan cmd_msg res_msg
      = { ret := -ERESTARTSYS, res_msg := res_msg
          taurus_event_list_head :=
            (env.inbound_ack ++ env.inbound_completed ++ env.inbound_cleanup).foldl
              (taurus_dispatch E.R_TAURUS_CMD_NOP) chan.taurus_event_list_head
          steps := [send_cmd_step.list_add addr, send_cmd_step.rpmsg_send cmd_msg,
            send_cmd_step.wait_ack, send_cmd_step.wait_completed, send_cmd_step.list_del addr,
            send_cmd_step.devm_kfree_result, send_cmd_step.devm_kfree_event] } := by
  rw [send_cmd_acknowledged E env chan cmd_msg res_msg addr last hevent hresult hsend hsig
    hlast hnack, send_cmd_completed_interrupted _ env _ res_msg _ hsig2]
  simp [List.foldl_append]

theorem send_cmd_done_timed_out (E : ether_protocol) (env : send_cmd_env)
    (chan : rcar_taurus_ether_channel) (cmd_msg : taurus_ether_cmd_msg)
    (res_msg : taurus_ether_res_msg) (addr : Nat) (last : taurus_res_msg)
    (hevent : env.event = some addr) (hresult : env.result = true)
    (hsend : env.rpmsg_send = 0) (hsig : env.wait_ack.signal = false)
    (hlast : (env.acks E.R_TAURUS_CMD_NOP cmd_msg.hdr.Id).getLast? = some last)
    (hnack : last.hdr.Result ≠ E.R_TAURUS_RES_NACK)
    (hsig2 : env.wait_completed.signal = false)
    (hone : (env.replies E.R_TAURUS_CMD_NOP cmd_msg.hdr.Id).length < 2) :
    rct_eth_conn_send_cmd E env chan cmd_msg res_msg
      = { ret := -ETIMEDOUT, res_msg := res_msg
          taurus_event_list_head :=
            (env.inbound_ack ++ env.inbound_completed ++ env.inbound_cleanup).foldl
              (taurus_dispatch E.R_TAURUS_CMD_NOP) chan.taurus_event_list_head
          steps := [send_cmd_step.list_add addr, send_cmd_step.rpmsg_send cmd_msg,
            send_cmd_step.wait_ack, send_cmd_step.wait_completed, send_cmd_step.list_del addr,
            send_cmd_step.devm_kfree_result, send_cmd_step.devm_kfree_event] } := by
  rw [replies_length] at hone
  have hpos := acks_length_pos env _ _ last hlast
  rw [send_cmd_acknowledged E env chan cmd_msg res_msg addr last hevent hresult hsend hsig
    hlast hnack, send_cmd_completed_timed_out _ env _ res_msg _ hsig2
      (by simp only [served, if_pos]; omega)]
  simp [List.foldl_append]

theorem send_cmd_success (E : ether_protocol) (env : send_cmd_env)
    (chan : rcar_taurus_ether_channel) (cmd_msg : taurus_ether_cmd_msg)
    (res_msg : taurus_ether_res_msg) (addr : Nat) (last : taurus_res_msg)
    (hevent : env.event = some addr) (hresult : env.result = true)
    (hsend : env.rpmsg_send = 0) (hsig : env.wait_ack.signal = false)
    (hlast : (env.acks E.R_TAURUS_CMD_NOP cmd_msg.hdr.Id).getLast? = some last)
    (hnack : last.hdr.Result ≠ E.R_TAURUS_RES_NACK)
    (hsig2 : env.wait_completed.signal = false)
    (htwo : 2 ≤ (env.replies E.R_TAURUS_CMD_NOP cmd_msg.hdr.Id).length) :
    rct_eth_conn_send_cmd E env chan cmd_msg res_msg
      = { ret := 0
          res_msg :=
            (env.replies E.R_TAURUS_CMD_NOP cmd_msg.hdr.Id).getLast?.getD zeroed_res_msg
          taurus_event_list_head :=
            (env.inbound_ack ++ env.inbound_completed ++ env.inbound_cleanup).foldl
              (taurus_dispatch E.R_TAURUS_CMD_NOP) chan.taurus_event_list_head
          steps := [send_cmd_step.list_add addr, send_cmd_step.rpmsg_send cmd_msg,
            send_cmd_step.wait_ack, send_cmd_step.wait_completed,
            send_cmd_step.memcpy_res_msg, send_cmd_step.list_del addr,
            send_cmd_step.devm_kfree_result, send_cmd_step.devm_kfree_event] } := by
  rw [replies_length] at htwo
  have hpos := acks_length_pos env _ _ last hlast
  rw [send_cmd_acknowledged E env chan cmd_msg res_msg addr last hevent hresult hsend hsig
    hlast hnack, send_cmd_completed_signalled _ env _ res_msg _ hsig2
      (by simp only [served, if_pos]; omega),
    replies_getLast env _ _ last hlast]
  simp [List.foldl_append, served]

theorem send_cmd_send_failed (E : ether_protocol) (env : send_cmd_env)
    (chan : rcar_taurus_ether_channel) (cmd_msg : taurus_ether_cmd_msg)
    (res_msg : taurus_ether_res_msg) (addr : Nat)
    (hevent : env.event = some addr) (hresult : env.result = true)
    (hsend : env.rpmsg_send ≠ 0) :
    rct_eth_conn_send_cmd E env chan cmd_msg res_msg
      = { ret := env.rpmsg_send, res_msg := res_msg
          taurus_event_list_head :=
            env.inbound_cleanup.foldl
              (taurus_dispatch E.R_TAURUS_CMD_NOP) chan.taurus_event_list_head
          steps := [send_cmd_step.list_add addr, send_cmd_step.rpmsg_send cmd_msg,
            send_cmd_step.list_del addr, send_cmd_step.devm_kfree_result,
            send_cmd_step.devm_kfree_event] } := by
  simp [rct_eth_conn_send_cmd, hevent, hresult, hsend, cleanup_3_eq]

/-- Every call of `rct_eth_conn_send_cmd` leaves the list of pending events as the
inbound envelopes alone have changed it, and its steps have one of three shapes: none
(first allocation failed), the release of the node (second allocation failed), or
`list_add`, the send, some of the two waits and the copy, then `list_del` of the same node
and the two releases. -/
theorem send_cmd_cases (E : ether_protocol) (env : send_cmd_env)
    (chan : rcar_taurus_ether_channel) (cmd_msg : taurus_ether_cmd_msg)
    (res_msg : taurus_ether_res_msg) :
    ∃ (ret : Int) (out : taurus_ether_res_msg) (l : List taurus_res_msg)
      (steps : List send_cmd_step),
      rct_eth_conn_send_cmd E env chan cmd_msg res_msg
        = { ret := ret, res_msg := out
            taurus_event_list_head :=
              l.foldl (taurus_dispatch E.R_TAURUS_CMD_NOP) chan.taurus_event_list_head
            steps := steps } ∧
      ((env.event = none ∧ steps = []) ∨
       (env.event ≠ none ∧ env.result = false ∧ steps = [send_cmd_step.devm_kfree_event]) ∨
       (∃ addr mid, env.event = some addr ∧ env.result = true ∧
          steps = [send_cmd_step.list_add addr, send_cmd_step.rpmsg_send cmd_msg] ++ mid ++
            [send_cmd_step.list_del addr, send_cmd_step.devm_kfree_result,
              send_cmd_step.devm_kfree_event] ∧
          ∀ s ∈ mid, s.is_list_add = false ∧ s.is_list_del = false)) := by
  cases hevent : env.event with
  | none =>
    refine ⟨-ENOMEM, res_msg, [], [], ?_, Or.inl ⟨rfl, rfl⟩⟩
    simp [rct_eth_conn_send_cmd, hevent]
  | some addr =>
    cases hresult : env.result with
    | false =>
      refine ⟨-ENOMEM, res_msg, [], [send_cmd_step.devm_kfree_event], ?_,
        Or.inr (Or.inl ⟨by simp, rfl, rfl⟩)⟩
      simp [rct_eth_conn_send_cmd, hevent, hresult]
    | true =>
      by_cases hsend : env.rpmsg_send = 0
      · cases hsig : env.wait_ack.signal with
        | true =>
          exact ⟨_, _, _, _,
            send_cmd_ack_interrupted E env chan cmd_msg res_msg addr hevent hresult hsend hsig,
            Or.inr (Or.inr ⟨addr, [send_cmd_step.wait_ack], rfl, rfl, rfl, by simp
              [send_cmd_step.is_list_add, send_cmd_step.is_list_del]⟩)⟩
        | false =>
          cases hlast : (env.acks E.R_TAURUS_CMD_NOP cmd_msg.hdr.Id).getLast? with
          | none =>
            exact ⟨_, _, _, _,
              send_cmd_ack_timed_out E env chan cmd_msg res_msg addr hevent hresult hsend hsig
                (List.getLast?_eq_none_iff.mp hlast),
              Or.inr (Or.inr ⟨addr, [send_cmd_step.wait_ack], rfl, rfl, rfl, by simp
                [send_cmd_step.is_list_add, send_cmd_step.is_list_del]⟩)⟩
          | some last =>
            by_cases hnack : last.hdr.Result = E.R_TAURUS_RES_NACK
            · exact ⟨_, _, _, _,
                send_cmd_rejected E env chan cmd_msg res_msg addr last hevent hresult hsend
                  hsig hlast hnack,
                Or.inr (Or.inr ⟨addr, [send_cmd_step.wait_ack], rfl, rfl, rfl, by simp
                  [send_cmd_step.is_list_add, send_cmd_step.is_list_del]⟩)⟩
            · cases hsig2 : env.wait_completed.signal with
              | true =>
                exact ⟨_, _, _, _,
                  send_cmd_done_interrupted E env chan cmd_msg res_msg addr last hevent
                    hresult hsend hsig hlast hnack hsig2,
                  Or.inr (Or.inr ⟨addr, [send_cmd_step.wait_ack, send_cmd_step.wait_completed],
                    rfl, rfl, rfl, by simp
                      [send_cmd_step.is_list_add, send_cmd_step.is_list_del]⟩)⟩
              | false =>
                by_cases hone : (env.replies E.R_TAURUS_CMD_NOP cmd_msg.hdr.Id).length < 2
                · exact ⟨_, _, _, _,
                    send_cmd_done_timed_out E env chan cmd_msg res_msg addr last hevent
                      hresult hsend hsig hlast hnack hsig2 hone,
                    Or.inr (Or.inr ⟨addr,
                      [send_cmd_step.wait_ack, send_cmd_step.wait_completed],
                      rfl, rfl, rfl, by simp
                        [send_cmd_step.is_list_add, send_cmd_step.is_list_del]⟩)⟩
                · exact ⟨_, _, _, _,
                    send_cmd_success E env chan cmd_msg res_msg addr last hevent
                      hresult hsend hsig hlast hnack hsig2 (by omega),
                    Or.inr (Or.inr ⟨addr,
                      [send_cmd_step.wait_ack, send_cmd_step.wait_completed,
                        send_cmd_step.memcpy_res_msg],
                      rfl, rfl, rfl, by simp
                        [send_cmd_step.is_list_add, send_cmd_step.is_list_del]⟩)⟩
      · exact ⟨_, _, _, _,
          send_cmd_send_failed E env chan cmd_msg res_msg addr hevent hresult hsend,
          Or.inr (Or.inr ⟨addr, [], rfl, rfl, rfl, by simp⟩)⟩

/-! ## The public commands -/

theorem send_cmd_ret_of_peer_rejects (E : ether_protocol) (env : send_cmd_env)
    (chan : rcar_taurus_ether_channel) (cmd_msg : taurus_ether_cmd_msg)
    (res_msg : taurus_ether_res_msg)
    (h : env.peer_rejects E cmd_msg.hdr.Id = true) :
    (rct_eth_conn_send_cmd E env chan cmd_msg res_msg).ret = -EINVAL := by
  unfold send_cmd_env.peer_rejects at h
  simp only [Bool.and_eq_true, decide_eq_true_eq, Bool.not_eq_true'] at h
  obtain ⟨⟨⟨⟨hevent, hresult⟩, hsend⟩, hsig⟩, hlast⟩ := h
  obtain ⟨addr, hevent⟩ := Option.isSome_iff_exists.mp hevent
  cases hl : (env.acks E.R_TAURUS_CMD_NOP cmd_msg.hdr.Id).getLast? with
  | none => simp [hl] at hlast
  | some last =>
    simp only [hl, decide_eq_true_eq] at hlast
    rw [send_cmd_rejected E env chan cmd_msg res_msg addr last hevent hresult hsend hsig hl
      hlast]

theorem send_cmd_ret_of_wait_times_out (E : ether_protocol) (env : send_cmd_env)
    (chan : rcar_taurus_ether_channel) (cmd_msg : taurus_ether_cmd_msg)
    (res_msg : taurus_ether_res_msg)
    (h : env.wait_times_out E cmd_msg.hdr.Id = true) :
    (rct_eth_conn_send_cmd E env chan cmd_msg res_msg).ret = -ETIMEDOUT := by
  unfold send_cmd_env.wait_times_out at h
  simp only [Bool.and_eq_true, decide_eq_true_eq, Bool.not_eq_true'] at h
  obtain ⟨⟨⟨⟨hevent, hresult⟩, hsend⟩, hsig⟩, hlast⟩ := h
  obtain ⟨addr, hevent⟩ := Option.isSome_iff_exists.mp hevent
  cases hl : (env.acks E.R_TAURUS_CMD_NOP cmd_msg.hdr.Id).getLast? with
  | none =>
    rw [send_cmd_ack_timed_out E env chan cmd_msg res_msg addr hevent hresult hsend hsig
      (List.getLast?_eq_none_iff.mp hl)]
  | some last =>
    simp only [hl, Bool.and_eq_true, decide_eq_true_eq, Bool.not_eq_true'] at hlast
    obtain ⟨⟨hnack, hsig2⟩, hone⟩ := hlast
    rw [send_cmd_done_timed_out E env chan cmd_msg res_msg addr last hevent hresult hsend
      hsig hl hnack hsig2 hone]

theorem command_ret_of_send_cmd_failure (E : ether_protocol) (env : send_cmd_env)
    (rpmsg_id_counter : Int) (rct_eth : rcar_taurus_ether_drv) (eth_ch : Nat)
    (chan : rcar_taurus_ether_channel) (out : taurus_ether_res_msg)
    (build : Nat → taurus_ether_cmd_msg) (res_field : List Nat → Nat)
    (hchan : rct_eth.channels[eth_ch]? = some chan)
    (hfail : (rct_eth_conn_send_cmd E env chan
      (build (to_u32 (rct_eth_conn_get_uniq_id rpmsg_id_counter).1)) out).ret ≠ 0) :
    (rct_eth_conn_command E env rpmsg_id_counter rct_eth eth_ch (some out) build
      res_field).map (fun r => r.ret) = some (-EPIPE) := by
  simp [rct_eth_conn_command, hchan, hfail]

theorem command_ret_of_rejection_or_timeout (E : ether_protocol) (env : send_cmd_env)
    (rpmsg_id_counter : Int) (rct_eth : rcar_taurus_ether_drv) (eth_ch : Nat)
    (chan : rcar_taurus_ether_channel) (out : taurus_ether_res_msg)
    (build : Nat → taurus_ether_cmd_msg) (res_field : List Nat → Nat)
    (hchan : rct_eth.channels[eth_ch]? = some chan)
    (hid : ∀ id, (build id).hdr.Id = id)
    (h : env.peer_rejects E (to_u32 (rct_eth_conn_get_uniq_id rpmsg_id_counter).1) = true ∨
      env.wait_times_out E (to_u32 (rct_eth_conn_get_uniq_id rpmsg_id_counter).1) = true) :
    (rct_eth_conn_command E env rpmsg_id_counter rct_eth eth_ch (some out) build
      res_field).map (fun r => r.ret) = some (-EPIPE) := by
  apply command_ret_of_send_cmd_failure E env rpmsg_id_counter rct_eth eth_ch chan out build
    res_field hchan
  rcases h with h | h
  · rw [send_cmd_ret_of_peer_rejects E env chan _ out (by rw [hid]; exact h)]
    decide
  · rw [send_cmd_ret_of_wait_times_out E env chan _ out (by rw [hid]; exact h)]
    decide

/-! ## Claims on the inbound callback -/

/-- C1: for an envelope that `rcar_vivid_cb` does not classify as an unsolicited event,
the callback returns and every pending event of the list whose identifier equals the
envelope's, at whatever place of the list, is served: with the flag unset the flag is
set and `ack` is posted once while `completed` is not; with the flag set `completed` is
posted once, `ack` is not, and the flag stays set.  The completions posted are exactly
one for each matching pending event. -/
theorem C1_every_match_is_signalled (P : camera_protocol) (now : Nat)
    (rvivid : rcar_vivid_device) (res : taurus_camera_res_msg)
    (hrep : ¬ (res.hdr.Result = P.R_TAURUS_CMD_NOP ∧ res.hdr.Id = 0)) :
    ∃ r, rcar_vivid_cb P now rvivid res = some r ∧
      (∀ (i : Nat) (w : taurus_event_list),
        rvivid.taurus_event_list_head[i]? = some w → w.id = res.hdr.Id →
        ∃ w1, r.rvivid.taurus_event_list_head[i]? = some w1 ∧
          (w.ack_received = false →
            w1.ack_received = true ∧ w1.ack = w.ack + 1 ∧ w1.completed = w.completed) ∧
          (w.ack_received = true →
            w1.ack_received = true ∧ w1.completed = w.completed + 1 ∧ w1.ack = w.ack)) ∧
      r.fired = ((rvivid.taurus_event_list_head.filter
          (fun w => decide (w.id = res.hdr.Id))).reverse.map
        (fun w => (w.addr,
          if w.ack_received then taurus_signal.completed else taurus_signal.ack))) := by
  refine ⟨_, rcar_vivid_cb_reply P now rvivid res hrep, ?_, ?_⟩
  · intro i w hw hid
    refine ⟨(rcar_vivid_cb_match res w []).1, ?_, ?_, ?_⟩
    · simp only [rcar_vivid_cb_scan_get?, hw, Option.map_some']
    · intro hf
      simp [rcar_vivid_cb_match, hid, hf, complete]
    · intro ht
      simp [rcar_vivid_cb_match, hid, ht, complete]
  · simp [rcar_vivid_cb_scan, scan_snd_eq]

/-- Witness of C1: two pending events share the identifier 7, one not yet acknowledged
and one acknowledged, and a third one has another identifier. -/
theorem C1_every_match_is_signalled_witness :
    ¬ ((demo_res 7 2).hdr.Result = demo_camera_protocol.R_TAURUS_CMD_NOP ∧
        (demo_res 7 2).hdr.Id = 0) ∧
    ∃ r, rcar_vivid_cb demo_camera_protocol 5
        { vivid := [demo_stream]
          taurus_event_list_head :=
            [demo_event 1 7, demo_event 2 8, { demo_event 3 7 with ack_received := true }] }
        (demo_res 7 2) = some r ∧
      r.fired = [(3, taurus_signal.completed), (1, taurus_signal.ack)] :=
  ⟨by decide,
    (C1_every_match_is_signalled demo_camera_protocol 5
      { vivid := [demo_stream]
        taurus_event_list_head :=
          [demo_event 1 7, demo_event 2 8, { demo_event 3 7 with ack_received := true }] }
      (demo_res 7 2) (by decide)).imp (fun _ h => ⟨h.1, h.2.2⟩)⟩

/-- C2: whatever the list of pending events and whatever the inbound envelope, once
`rcar_vivid_cb` has returned the list holds the same nodes with the same identifiers in
the same order, every pending event whose identifier differs from the envelope's is
unchanged (result buffer, flag and both completions), and every completion posted
belongs to a pending event whose identifier equals the envelope's. -/
theorem C2_other_waiters_untouched (P : camera_protocol) (now : Nat)
    (rvivid : rcar_vivid_device) (res : taurus_camera_res_msg) (r : rcar_vivid_cb_result)
    (hr : rcar_vivid_cb P now rvivid res = some r) :
    r.rvivid.taurus_event_list_head.map (fun w => w.addr)
        = rvivid.taurus_event_list_head.map (fun w => w.addr) ∧
      r.rvivid.taurus_event_list_head.map (fun w => w.id)
        = rvivid.taurus_event_list_head.map (fun w => w.id) ∧
      (∀ (i : Nat) (w : taurus_event_list),
        rvivid.taurus_event_list_head[i]? = some w → w.id ≠ res.hdr.Id →
        r.rvivid.taurus_event_list_head[i]? = some w) ∧
      (∀ entry ∈ r.fired, ∃ w ∈ rvivid.taurus_event_list_head,
        w.id = res.hdr.Id ∧ w.addr = entry.1) := by
  by_cases hev : res.hdr.Result = P.R_TAURUS_CMD_NOP ∧ res.hdr.Id = 0
  · obtain ⟨_, hl, hf⟩ := rcar_vivid_cb_event_frame P now rvivid res r hev hr
    rw [hl, hf]
    refine ⟨rfl, rfl, fun i w hw _ => hw, ?_⟩
    intro entry he
    exact absurd he (List.not_mem_nil _)
  · rw [rcar_vivid_cb_reply P now rvivid res hev] at hr
    cases hr
    refine ⟨rcar_vivid_cb_scan_addr res _, rcar_vivid_cb_scan_id res _, ?_, ?_⟩
    · intro i w hw hne
      simp only [rcar_vivid_cb_scan_get?, hw, Option.map_some',
        rcar_vivid_cb_match_other res w hne]
    · intro entry he
      simp only [rcar_vivid_cb_scan, scan_snd_eq, List.nil_append, List.mem_map,
        List.mem_reverse, List.mem_filter, decide_eq_true_eq] at he
      obtain ⟨w, ⟨hw, hid⟩, rfl⟩ := he
      exact ⟨w, hw, hid, rfl⟩

/-- Witness of C2: an envelope for identifier 7 leaves the pending event 8 as it was. -/
theorem C2_other_waiters_untouched_witness :
    rcar_vivid_cb demo_camera_protocol 5
        { vivid := [demo_stream], taurus_event_list_head := [demo_event 1 7, demo_event 2 8] }
        (demo_res 7 2)
      = some { ret := 0
               rvivid :=
                { vivid := [demo_stream]
                  taurus_event_list_head :=
                    [{ demo_event 1 7 with
                        result := demo_res 7 2, ack := 1, ack_received := true },
                     demo_event 2 8] }
               fired := [(1, taurus_signal.ack)] } ∧
    ∀ (i : Nat) (w : taurus_event_list),
      [demo_event 1 7, demo_event 2 8][i]? = some w → w.id ≠ (demo_res 7 2).hdr.Id →
      [{ demo_event 1 7 with result := demo_res 7 2, ack := 1, ack_received := true },
        demo_event 2 8][i]? = some w :=
  ⟨by decide,
    (C2_other_waiters_untouched demo_camera_protocol 5
      { vivid := [demo_stream], taurus_event_list_head := [demo_event 1 7, demo_event 2 8] }
      (demo_res 7 2)
      { ret := 0
        rvivid :=
          { vivid := [demo_stream]
            taurus_event_list_head :=
              [{ demo_event 1 7 with result := demo_res 7 2, ack := 1, ack_received := true },
               demo_event 2 8] }
        fired := [(1, taurus_signal.ack)] } (by decide)).2.2.1⟩

/-- Counterexample to C3 as stated: one pending event, three envelopes carrying its
identifier; `completed` is posted twice. -/
theorem C3_done_posted_twice :
    (∀ e ∈ [(1, demo_res 7 0), (2, demo_res 7 2), (3, demo_res 7 2)],
      e.2.hdr.Id = (demo_event 1 7).id) ∧
    rcar_vivid_cb_seq demo_camera_protocol
        { vivid := [], taurus_event_list_head := [demo_event 1 7] }
        [(1, demo_res 7 0), (2, demo_res 7 2), (3, demo_res 7 2)]
      = some { vivid := []
               taurus_event_list_head :=
                [{ demo_event 1 7 with
                    result := demo_res 7 2, ack := 1, ack_received := true, completed := 2 }] } ∧
    ¬ ((2 : Nat) ≤ (demo_event 1 7).completed + 1) := by
  decide

/-- C3, amended: for a single registered pending event and any finite sequence of
envelopes carrying its identifier that go through the scan, `ack` is posted at most once
in total (once when the flag was unset and at least one envelope came, never otherwise)
and `completed` is posted once for every envelope processed while the flag is set: all of
them when the flag was set at the start, all but the first one otherwise. -/
theorem C3_ack_once_done_for_each_later_match (P : camera_protocol)
    (streams : List vivid_v4l2_device) (es : List (Nat × taurus_camera_res_msg))
    (w : taurus_event_list)
    (hes : ∀ e ∈ es, e.2.hdr.Id = w.id ∧
      ¬ (e.2.hdr.Result = P.R_TAURUS_CMD_NOP ∧ e.2.hdr.Id = 0)) :
    ∃ w1, rcar_vivid_cb_seq P { vivid := streams, taurus_event_list_head := [w] } es
        = some { vivid := streams, taurus_event_list_head := [w1] } ∧
      w1.ack = w.ack + (if w.ack_received = false ∧ es ≠ [] then 1 else 0) ∧
      w1.ack ≤ w.ack + 1 ∧
      w1.completed = w.completed + (es.length - (if w.ack_received then 0 else 1)) := by
  induction es generalizing w with
  | nil => exact ⟨w, rfl, by simp, by simp, by simp⟩
  | cons e es ih =>
    have he := hes e (List.mem_cons_self _ _)
    have hstep : rcar_vivid_cb P e.1 { vivid := streams, taurus_event_list_head := [w] } e.2
        = some { ret := 0
                 rvivid := { vivid := streams
                             taurus_event_list_head := [(rcar_vivid_cb_match e.2 w []).1] }
                 fired := (rcar_vivid_cb_scan [w] e.2).2 } := by
      rw [rcar_vivid_cb_reply P e.1 _ e.2 he.2]
      simp [rcar_vivid_cb_scan, list_for_each_prev]
    have hid : (rcar_vivid_cb_match e.2 w []).1.id = w.id :=
      (rcar_vivid_cb_match_addr_id e.2 w).2
    obtain ⟨w1, h1, h2, _, h4⟩ := ih (rcar_vivid_cb_match e.2 w []).1 (by
      intro e1 h
      have := hes e1 (List.mem_cons_of_mem _ h)
      exact ⟨by rw [hid]; exact this.1, this.2⟩)
    refine ⟨w1, ?_, ?_, ?_, ?_⟩
    · simp only [rcar_vivid_cb_seq, hstep]
      exact h1
    · rw [h2]
      cases hw : w.ack_received <;>
        simp [rcar_vivid_cb_match, he.1.symm, hw, complete]
    · rw [h2]
      cases hw : w.ack_received <;>
        simp [rcar_vivid_cb_match, he.1.symm, hw, complete]
    · rw [h4]
      cases hw : w.ack_received
      · simp [rcar_vivid_cb_match, he.1.symm, hw, complete]
      · simp [rcar_vivid_cb_match, he.1.symm, hw, complete]
        omega

/-- Witness of C3, amended: three envelopes for the identifier 7 of the only pending
event. -/
theorem C3_ack_once_done_for_each_later_match_witness :
    (∀ e ∈ [(1, demo_res 7 0), (2, demo_res 7 2), (3, demo_res 7 2)],
      e.2.hdr.Id = (demo_event 1 7).id ∧
        ¬ (e.2.hdr.Result = demo_camera_protocol.R_TAURUS_CMD_NOP ∧ e.2.hdr.Id = 0)) ∧
    ∃ w1, rcar_vivid_cb_seq demo_camera_protocol
        { vivid := [demo_stream], taurus_event_list_head := [demo_event 1 7] }
        [(1, demo_res 7 0), (2, demo_res 7 2), (3, demo_res 7 2)]
        = some { vivid := [demo_stream], taurus_event_list_head := [w1] } ∧
      w1.ack = 0 + 1 ∧ w1.ack ≤ 0 + 1 ∧ w1.completed = 0 + (3 - 1) :=
  ⟨by decide,
    C3_ack_once_done_for_each_later_match demo_camera_protocol [demo_stream]
      [(1, demo_res 7 0), (2, demo_res 7 2), (3, demo_res 7 2)] (demo_event 1 7) (by decide)⟩

/-- C4: `rcar_vivid_cb` takes the unsolicited-event path exactly when the outcome is
`R_TAURUS_CMD_NOP` and the identifier is 0.  On that path it returns 0 (it returns
whenever the event addresses an existing stream and slot), leaves the list of pending
events as it was and posts no completion, also when a pending event has identifier 0.
In every other case the envelope goes through the scan of the pending events, the
callback returns 0 and no stream is changed. -/
theorem C4_classification (P : camera_protocol) (now : Nat) (rvivid : rcar_vivid_device)
    (res : taurus_camera_res_msg) :
    (res.hdr.Result = P.R_TAURUS_CMD_NOP ∧ res.hdr.Id = 0 →
      (frame_ready_in_range P rvivid res = true → ∃ r, rcar_vivid_cb P now rvivid res = some r) ∧
      ∀ r, rcar_vivid_cb P now rvivid res = some r →
        r.ret = 0 ∧ r.rvivid.taurus_event_list_head = rvivid.taurus_event_list_head ∧
          r.fired = []) ∧
    (¬ (res.hdr.Result = P.R_TAURUS_CMD_NOP ∧ res.hdr.Id = 0) →
      ∃ r, rcar_vivid_cb P now rvivid res = some r ∧ r.ret = 0 ∧
        r.rvivid.vivid = rvivid.vivid ∧
        r.rvivid.taurus_event_list_head
          = (rcar_vivid_cb_scan rvivid.taurus_event_list_head res).1 ∧
        r.fired = (rcar_vivid_cb_scan rvivid.taurus_event_list_head res).2) := by
  refine ⟨fun hev => ⟨rcar_vivid_cb_event_returns P now rvivid res hev, ?_⟩, fun hrep => ?_⟩
  · intro r hr
    exact rcar_vivid_cb_event_frame P now rvivid res r hev hr
  · exact ⟨_, rcar_vivid_cb_reply P now rvivid res hrep, rfl, rfl, rfl, rfl⟩

/-- Witness of C4, event path: outcome NOP and identifier 0 with a pending event of
identifier 0 registered; the frame of slot 1 is handed over, the pending event is not
touched. -/
theorem C4_classification_witness :
    ((demo_res 0 0).hdr.Result = demo_camera_protocol.R_TAURUS_CMD_NOP ∧
        (demo_res 0 0).hdr.Id = 0) ∧
    frame_ready_in_range demo_camera_protocol
        { vivid := [demo_stream], taurus_event_list_head := [demo_event 1 0] }
        { demo_res 0 0 with hdr := { (demo_res 0 0).hdr with Aux := 256 } } = true ∧
    ∃ r, rcar_vivid_cb demo_camera_protocol 5
        { vivid := [demo_stream], taurus_event_list_head := [demo_event 1 0] }
        { demo_res 0 0 with hdr := { (demo_res 0 0).hdr with Aux := 256 } } = some r :=
  ⟨by decide, by decide,
    ((C4_classification demo_camera_protocol 5
      { vivid := [demo_stream], taurus_event_list_head := [demo_event 1 0] }
      { demo_res 0 0 with hdr := { (demo_res 0 0).hdr with Aux := 256 } }).1
        (by decide)).1 (by decide)⟩

/-! ## Claims on the request/response engine -/

/-- C5: when both allocations and the send succeed, the ack wait ends on a posted
completion with a result whose outcome is not `R_TAURUS_RES_NACK`, and the done wait
then ends on a posted completion, `rct_eth_conn_send_cmd` returns 0 and the caller's
`res_msg` is the result buffer of the pending event, which holds the whole envelope the
scan copied last (the last matching envelope processed before the copy); the node of the
call is off the list afterwards, which holds the nodes it held before the call. -/
theorem C5_success_path (E : ether_protocol) (env : send_cmd_env)
    (chan : rcar_taurus_ether_channel) (cmd_msg : taurus_ether_cmd_msg)
    (res_msg : taurus_ether_res_msg) (addr : Nat) (last : taurus_res_msg)
    (hevent : env.event = some addr) (hresult : env.result = true)
    (hsend : env.rpmsg_send = 0) (hsig : env.wait_ack.signal = false)
    (hlast : (env.acks E.R_TAURUS_CMD_NOP cmd_msg.hdr.Id).getLast? = some last)
    (hnack : last.hdr.Result ≠ E.R_TAURUS_RES_NACK)
    (hsig2 : env.wait_completed.signal = false)
    (htwo : 2 ≤ (env.replies E.R_TAURUS_CMD_NOP cmd_msg.hdr.Id).length) :
    (rct_eth_conn_send_cmd E env chan cmd_msg res_msg).ret = 0 ∧
    (env.replies E.R_TAURUS_CMD_NOP cmd_msg.hdr.Id).getLast?
      = some (rct_eth_conn_send_cmd E env chan cmd_msg res_msg).res_msg ∧
    (rct_eth_conn_send_cmd E env chan cmd_msg res_msg).steps
      = [send_cmd_step.list_add addr, send_cmd_step.rpmsg_send cmd_msg,
         send_cmd_step.wait_ack, send_cmd_step.wait_completed, send_cmd_step.memcpy_res_msg,
         send_cmd_step.list_del addr, send_cmd_step.devm_kfree_result,
         send_cmd_step.devm_kfree_event] ∧
    (rct_eth_conn_send_cmd E env chan cmd_msg res_msg).taurus_event_list_head
      = (env.inbound_ack ++ env.inbound_completed ++ env.inbound_cleanup).foldl
          (taurus_dispatch E.R_TAURUS_CMD_NOP) chan.taurus_event_list_head ∧
    (rct_eth_conn_send_cmd E env chan cmd_msg res_msg).taurus_event_list_head.map
        (fun w => w.addr) = chan.taurus_event_list_head.map (fun w => w.addr) := by
  rw [send_cmd_success E env chan cmd_msg res_msg addr last hevent hresult hsend hsig hlast
    hnack hsig2 htwo]
  refine ⟨rfl, ?_, rfl, rfl, (taurus_dispatch_fold_addr_id _ _ _).1⟩
  have hne : env.replies E.R_TAURUS_CMD_NOP cmd_msg.hdr.Id ≠ [] := by
    intro h
    rw [h] at htwo
    simp at htwo
  rw [List.getLast?_eq_getLast _ hne]
  rfl

/-- Witness of C5: the peer acknowledges the request 7 (outcome 0) and then completes
it (outcome 2) while another call is pending. -/
theorem C5_success_path_witness :
    (demo_env [demo_res 7 0] [demo_res 3 0, demo_res 7 2]).event = some 8192 ∧
    ((demo_env [demo_res 7 0] [demo_res 3 0, demo_res 7 2]).acks
        demo_ether_protocol.R_TAURUS_CMD_NOP (demo_cmd 7).hdr.Id).getLast?
      = some (demo_res 7 0) ∧
    (rct_eth_conn_send_cmd demo_ether_protocol
        (demo_env [demo_res 7 0] [demo_res 3 0, demo_res 7 2]) demo_chan (demo_cmd 7)
        zeroed_res_msg).ret = 0 ∧
    some (demo_res 7 2)
      = some (rct_eth_conn_send_cmd demo_ether_protocol
          (demo_env [demo_res 7 0] [demo_res 3 0, demo_res 7 2]) demo_chan (demo_cmd 7)
          zeroed_res_msg).res_msg :=
  ⟨rfl, by decide,
    (C5_success_path demo_ether_protocol
      (demo_env [demo_res 7 0] [demo_res 3 0, demo_res 7 2]) demo_chan (demo_cmd 7)
      zeroed_res_msg 8192 (demo_res 7 0) rfl rfl rfl rfl (by decide) (by decide) rfl
      (by decide)).1,
    (C5_success_path demo_ether_protocol
      (demo_env [demo_res 7 0] [demo_res 3 0, demo_res 7 2]) demo_chan (demo_cmd 7)
      zeroed_res_msg 8192 (demo_res 7 0) rfl rfl rfl rfl (by decide) (by decide) rfl
      (by decide)).2.1⟩

/-- Counterexample to C6 as stated: the first envelope matching the request 7 is a
rejection (outcome 1), a second matching envelope (outcome 2) is processed before the
caller reads the result buffer; the call performs the done wait, copies the second
envelope into the caller's `res_msg` and returns 0. -/
theorem C6_rejection_overwritten :
    ((demo_env [demo_res 7 1, demo_res 7 2] []).acks
        demo_ether_protocol.R_TAURUS_CMD_NOP (demo_cmd 7).hdr.Id).head?
      = some (demo_res 7 1) ∧
    (demo_res 7 1).hdr.Result = demo_ether_protocol.R_TAURUS_RES_NACK ∧
    (rct_eth_conn_send_cmd demo_ether_protocol (demo_env [demo_res 7 1, demo_res 7 2] [])
        demo_chan (demo_cmd 7) zeroed_res_msg).ret = 0 ∧
    send_cmd_step.wait_completed ∈
      (rct_eth_conn_send_cmd demo_ether_protocol (demo_env [demo_res 7 1, demo_res 7 2] [])
        demo_chan (demo_cmd 7) zeroed_res_msg).steps ∧
    (rct_eth_conn_send_cmd demo_ether_protocol (demo_env [demo_res 7 1, demo_res 7 2] [])
        demo_chan (demo_cmd 7) zeroed_res_msg).res_msg = demo_res 7 2 := by
  decide

/-- C6, amended: if the ack wait ends on a posted completion and the result buffer then
holds the outcome `R_TAURUS_RES_NACK` (the last matching envelope processed by then is
a rejection, as when the rejection is the only one), `rct_eth_conn_send_cmd` returns
`-EINVAL`, performs no done wait and copies nothing into the caller's `res_msg`,
whatever envelopes are processed afterwards. -/
theorem C6_rejection_read_at_ack (E : ether_protocol) (env : send_cmd_env)
    (chan : rcar_taurus_ether_channel) (cmd_msg : taurus_ether_cmd_msg)
    (res_msg : taurus_ether_res_msg) (addr : Nat) (last : taurus_res_msg)
    (hevent : env.event = some addr) (hresult : env.result = true)
    (hsend : env.rpmsg_send = 0) (hsig : env.wait_ack.signal = false)
    (hlast : (env.acks E.R_TAURUS_CMD_NOP cmd_msg.hdr.Id).getLast? = some last)
    (hnack : last.hdr.Result = E.R_TAURUS_RES_NACK) :
    (rct_eth_conn_send_cmd E env chan cmd_msg res_msg).ret = -EINVAL ∧
    send_cmd_step.wait_completed ∉ (rct_eth_conn_send_cmd E env chan cmd_msg res_msg).steps ∧
    send_cmd_step.memcpy_res_msg ∉ (rct_eth_conn_send_cmd E env chan cmd_msg res_msg).steps ∧
    (rct_eth_conn_send_cmd E env chan cmd_msg res_msg).res_msg = res_msg := by
  rw [send_cmd_rejected E env chan cmd_msg res_msg addr last hevent hresult hsend hsig hlast
    hnack]
  exact ⟨rfl, by simp, by simp, rfl⟩

/-- Witness of C6, amended: the rejection is the only matching envelope processed
before the ack wait ends; matching envelopes come afterwards. -/
theorem C6_rejection_read_at_ack_witness :
    ({ demo_env [demo_res 7 1] [demo_res 7 2] with inbound_cleanup := [demo_res 7 2] }
        : send_cmd_env).event = some 8192 ∧
    (({ demo_env [demo_res 7 1] [demo_res 7 2] with inbound_cleanup := [demo_res 7 2] }
        : send_cmd_env).acks demo_ether_protocol.R_TAURUS_CMD_NOP (demo_cmd 7).hdr.Id).getLast?
      = some (demo_res 7 1) ∧
    (rct_eth_conn_send_cmd demo_ether_protocol
      { demo_env [demo_res 7 1] [demo_res 7 2] with inbound_cleanup := [demo_res 7 2] }
      demo_chan (demo_cmd 7) (demo_res 99 0)).ret = -EINVAL ∧
    (rct_eth_conn_send_cmd demo_ether_protocol
      { demo_env [demo_res 7 1] [demo_res 7 2] with inbound_cleanup := [demo_res 7 2] }
      demo_chan (demo_cmd 7) (demo_res 99 0)).res_msg = demo_res 99 0 :=
  ⟨rfl, by decide,
    (C6_rejection_read_at_ack demo_ether_protocol
      { demo_env [demo_res 7 1] [demo_res 7 2] with inbound_cleanup := [demo_res 7 2] }
      demo_chan (demo_cmd 7) (demo_res 99 0) 8192 (demo_res 7 1) rfl rfl rfl rfl (by decide)
      (by decide)).1,
    (C6_rejection_read_at_ack demo_ether_protocol
      { demo_env [demo_res 7 1] [demo_res 7 2] with inbound_cleanup := [demo_res 7 2] }
      demo_chan (demo_cmd 7) (demo_res 99 0) 8192 (demo_res 7 1) rfl rfl rfl rfl (by decide)
      (by decide)).2.2.2⟩

/-- C7: whatever happens to a call of `rct_eth_conn_send_cmd` (allocation failure, send
failure, rejection, interruption or timeout of either wait, success), if the identifier
of the request was not on the list of pending events before the call it is not on it
when the call returns, and the list holds the nodes it held before the call, in their
order; the node of the call is put on the list exactly when both allocations succeed,
and it is taken off as many times as it is put on (once or never), the node taken off
being the node put on. -/
theorem C7_no_dangling_waiter (E : ether_protocol) (env : send_cmd_env)
    (chan : rcar_taurus_ether_channel) (cmd_msg : taurus_ether_cmd_msg)
    (res_msg : taurus_ether_res_msg)
    (hfresh : cmd_msg.hdr.Id ∉ chan.taurus_event_list_head.map (fun w => w.id)) :
    cmd_msg.hdr.Id ∉
      (rct_eth_conn_send_cmd E env chan cmd_msg res_msg).taurus_event_list_head.map
        (fun w => w.id) ∧
    (rct_eth_conn_send_cmd E env chan cmd_msg res_msg).taurus_event_list_head.map
        (fun w => w.addr) = chan.taurus_event_list_head.map (fun w => w.addr) ∧
    (rct_eth_conn_send_cmd E env chan cmd_msg res_msg).taurus_event_list_head.map
        (fun w => w.id) = chan.taurus_event_list_head.map (fun w => w.id) ∧
    (rct_eth_conn_send_cmd E env chan cmd_msg res_msg).steps.countP
        send_cmd_step.is_list_add = (if env.event ≠ none ∧ env.result = true then 1 else 0) ∧
    (rct_eth_conn_send_cmd E env chan cmd_msg res_msg).steps.countP
        send_cmd_step.is_list_del
      = (rct_eth_conn_send_cmd E env chan cmd_msg res_msg).steps.countP
          send_cmd_step.is_list_add ∧
    (∀ a, send_cmd_step.list_del a ∈ (rct_eth_conn_send_cmd E env chan cmd_msg res_msg).steps →
      send_cmd_step.list_add a ∈ (rct_eth_conn_send_cmd E env chan cmd_msg res_msg).steps) := by
  obtain ⟨ret, out, l, steps, h, hsteps⟩ := send_cmd_cases E env chan cmd_msg res_msg
  rw [h]
  have hid := (taurus_dispatch_fold_addr_id E.R_TAURUS_CMD_NOP l chan.taurus_event_list_head).2
  have haddr := (taurus_dispatch_fold_addr_id E.R_TAURUS_CMD_NOP l chan.taurus_event_list_head).1
  refine ⟨by simpa only [hid] using hfresh, haddr, hid, ?_⟩
  rcases hsteps with ⟨hev, rfl⟩ | ⟨hev, hres, rfl⟩ | ⟨addr, mid, hev, hres, rfl, hmid⟩
  · simp [hev]
  · simp [hres, send_cmd_step.is_list_add, send_cmd_step.is_list_del]
  · have hadd : mid.countP send_cmd_step.is_list_add = 0 :=
      List.countP_eq_zero.mpr (fun s hs => by simp [(hmid s hs).1])
    have hdel : mid.countP send_cmd_step.is_list_del = 0 :=
      List.countP_eq_zero.mpr (fun s hs => by simp [(hmid s hs).2])
    refine ⟨?_, ?_, ?_⟩
    · simp [hev, hres, List.countP_append, List.countP_cons, hadd,
        send_cmd_step.is_list_add]
    · simp [List.countP_append, List.countP_cons, hadd, hdel,
        send_cmd_step.is_list_add, send_cmd_step.is_list_del]
    · intro a ha
      simp only [List.mem_append, List.mem_cons, List.mem_singleton, List.not_mem_nil,
        or_false, send_cmd_step.list_del.injEq, reduceCtorEq, false_or] at ha
      rcases ha with ha | ha
      · have := (hmid _ ha).2
        simp [send_cmd_step.is_list_del] at this
      · simp [ha]

/-- Witness of C7: the ack wait of the request 7 times out while an envelope for the
pending event 3 comes in; the list holds the node 4096 of the other call only. -/
theorem C7_no_dangling_waiter_witness :
    (demo_cmd 7).hdr.Id ∉ demo_chan.taurus_event_list_head.map (fun w => w.id) ∧
    (demo_cmd 7).hdr.Id ∉
      (rct_eth_conn_send_cmd demo_ether_protocol (demo_env [demo_res 3 0] []) demo_chan
        (demo_cmd 7) zeroed_res_msg).taurus_event_list_head.map (fun w => w.id) ∧
    (rct_eth_conn_send_cmd demo_ether_protocol (demo_env [demo_res 3 0] []) demo_chan
        (demo_cmd 7) zeroed_res_msg).taurus_event_list_head.map (fun w => w.addr)
      = demo_chan.taurus_event_list_head.map (fun w => w.addr) :=
  ⟨by decide,
    (C7_no_dangling_waiter demo_ether_protocol (demo_env [demo_res 3 0] []) demo_chan
      (demo_cmd 7) zeroed_res_msg (by decide)).1,
    (C7_no_dangling_waiter demo_ether_protocol (demo_env [demo_res 3 0] []) demo_chan
      (demo_cmd 7) zeroed_res_msg (by decide)).2.1⟩

/-- C8: when `rpmsg_send` returns a non-zero value, `rct_eth_conn_send_cmd` returns that
value, performs neither wait, takes off the list the node it had put on it before the
send, and leaves the caller's `res_msg` as it was; the other pending events stay on the
list, in their order. -/
theorem C8_send_failure (E : ether_protocol) (env : send_cmd_env)
    (chan : rcar_taurus_ether_channel) (cmd_msg : taurus_ether_cmd_msg)
    (res_msg : taurus_ether_res_msg) (addr : Nat)
    (hevent : env.event = some addr) (hresult : env.result = true)
    (hsend : env.rpmsg_send ≠ 0) :
    (rct_eth_conn_send_cmd E env chan cmd_msg res_msg).ret = env.rpmsg_send ∧
    (rct_eth_conn_send_cmd E env chan cmd_msg res_msg).res_msg = res_msg ∧
    (rct_eth_conn_send_cmd E env chan cmd_msg res_msg).steps
      = [send_cmd_step.list_add addr, send_cmd_step.rpmsg_send cmd_msg,
         send_cmd_step.list_del addr, send_cmd_step.devm_kfree_result,
         send_cmd_step.devm_kfree_event] ∧
    (rct_eth_conn_send_cmd E env chan cmd_msg res_msg).taurus_event_list_head.map
        (fun w => w.addr) = chan.taurus_event_list_head.map (fun w => w.addr) ∧
    (rct_eth_conn_send_cmd E env chan cmd_msg res_msg).taurus_event_list_head.map
        (fun w => w.id) = chan.taurus_event_list_head.map (fun w => w.id) := by
  have h := send_cmd_send_failed E env chan cmd_msg res_msg addr hevent hresult hsend
  rw [h]
  exact ⟨rfl, rfl, rfl, (taurus_dispatch_fold_addr_id _ _ _).1,
    (taurus_dispatch_fold_addr_id _ _ _).2⟩

/-- Witness of C8: the send fails with -32 while an envelope for the call and one for
another pending event come in. -/
theorem C8_send_failure_witness :
    ({ demo_env [] [] with rpmsg_send := -32, inbound_cleanup := [demo_res 7 0, demo_res 3 0] }
        : send_cmd_env).event = some 8192 ∧
    (rct_eth_conn_send_cmd demo_ether_protocol
      { demo_env [] [] with rpmsg_send := -32, inbound_cleanup := [demo_res 7 0, demo_res 3 0] }
      demo_chan (demo_cmd 7) (demo_res 99 2)).ret = -32 ∧
    (rct_eth_conn_send_cmd demo_ether_protocol
      { demo_env [] [] with rpmsg_send := -32, inbound_cleanup := [demo_res 7 0, demo_res 3 0] }
      demo_chan (demo_cmd 7) (demo_res 99 2)).res_msg = demo_res 99 2 :=
  ⟨rfl,
    (C8_send_failure demo_ether_protocol
      { demo_env [] [] with rpmsg_send := -32, inbound_cleanup := [demo_res 7 0, demo_res 3 0] }
      demo_chan (demo_cmd 7) (demo_res 99 2) 8192 rfl rfl (by decide)).1,
    (C8_send_failure demo_ether_protocol
      { demo_env [] [] with rpmsg_send := -32, inbound_cleanup := [demo_res 7 0, demo_res 3 0] }
      demo_chan (demo_cmd 7) (demo_res 99 2) 8192 rfl rfl (by decide)).2.1⟩

/-- C9: after a successful send, `rct_eth_conn_send_cmd` returns `-ERESTARTSYS` when the
ack wait is interrupted and `-ETIMEDOUT` when it expires with nothing posted; after an
ack that is not a rejection it returns `-ERESTARTSYS` when the done wait is interrupted
and `-ETIMEDOUT` when it expires with nothing posted.  The two values differ from each
other, from the rejection result `-EINVAL` and from 0. -/
theorem C9_timeout_and_interruption (E : ether_protocol) (env : send_cmd_env)
    (chan : rcar_taurus_ether_channel) (cmd_msg : taurus_ether_cmd_msg)
    (res_msg : taurus_ether_res_msg) (addr : Nat)
    (hevent : env.event = some addr) (hresult : env.result = true)
    (hsend : env.rpmsg_send = 0) :
    (env.wait_ack.signal = true →
      (rct_eth_conn_send_cmd E env chan cmd_msg res_msg).ret = -ERESTARTSYS) ∧
    (env.wait_ack.signal = false → env.acks E.R_TAURUS_CMD_NOP cmd_msg.hdr.Id = [] →
      (rct_eth_conn_send_cmd E env chan cmd_msg res_msg).ret = -ETIMEDOUT) ∧
    (env.wait_ack.signal = false →
      ∀ last, (env.acks E.R_TAURUS_CMD_NOP cmd_msg.hdr.Id).getLast? = some last →
      last.hdr.Result ≠ E.R_TAURUS_RES_NACK →
      (env.wait_completed.signal = true →
        (rct_eth_conn_send_cmd E env chan cmd_msg res_msg).ret = -ERESTARTSYS) ∧
      (env.wait_completed.signal = false →
        (env.replies E.R_TAURUS_CMD_NOP cmd_msg.hdr.Id).length < 2 →
        (rct_eth_conn_send_cmd E env chan cmd_msg res_msg).ret = -ETIMEDOUT)) ∧
    -ETIMEDOUT ≠ -ERESTARTSYS ∧ -ETIMEDOUT ≠ -EINVAL ∧ -ETIMEDOUT ≠ (0 : Int) ∧
    -ERESTARTSYS ≠ -EINVAL ∧ -ERESTARTSYS ≠ (0 : Int) := by
  refine ⟨?_, ?_, ?_, by decide, by decide, by decide, by decide, by decide⟩
  · intro hsig
    rw [send_cmd_ack_interrupted E env chan cmd_msg res_msg addr hevent hresult hsend hsig]
  · intro hsig hm
    rw [send_cmd_ack_timed_out E env chan cmd_msg res_msg addr hevent hresult hsend hsig hm]
  · intro hsig last hlast hnack
    constructor
    · intro hsig2
      rw [send_cmd_done_interrupted E env chan cmd_msg res_msg addr last hevent hresult hsend
        hsig hlast hnack hsig2]
    · intro hsig2 hone
      rw [send_cmd_done_timed_out E env chan cmd_msg res_msg addr last hevent hresult hsend
        hsig hlast hnack hsig2 hone]

/-- Witness of C9: the request 7 is acknowledged and never completed; the done wait
expires. -/
theorem C9_timeout_and_interruption_witness :
    (demo_env [demo_res 7 0] []).event = some 8192 ∧
    ((demo_env [demo_res 7 0] []).acks demo_ether_protocol.R_TAURUS_CMD_NOP
        (demo_cmd 7).hdr.Id).getLast? = some (demo_res 7 0) ∧
    ((demo_env [demo_res 7 0] []).replies demo_ether_protocol.R_TAURUS_CMD_NOP
        (demo_cmd 7).hdr.Id).length < 2 ∧
    (rct_eth_conn_send_cmd demo_ether_protocol (demo_env [demo_res 7 0] []) demo_chan
        (demo_cmd 7) zeroed_res_msg).ret = -ETIMEDOUT :=
  ⟨rfl, by decide, by decide,
    ((C9_timeout_and_interruption demo_ether_protocol (demo_env [demo_res 7 0] []) demo_chan
      (demo_cmd 7) zeroed_res_msg 8192 rfl rfl rfl).2.2.1 rfl (demo_res 7 0) (by decide)
      (by decide)).2 rfl (by decide)⟩

/-- Counterexample to C10 as stated: `rct_eth_conn_open` returns `-EPIPE` when the peer
rejects the command (where `rct_eth_conn_send_cmd` returns `-EINVAL`) and `-EPIPE` again
when the ack wait times out (where `rct_eth_conn_send_cmd` returns `-ETIMEDOUT`): the
two values the caller sees are equal. -/
theorem C10_open_rejection_equals_timeout :
    (demo_env [demo_res 1 1] []).peer_rejects demo_ether_protocol
      (to_u32 (rct_eth_conn_get_uniq_id 0).1) = true ∧
    (demo_env [] []).wait_times_out demo_ether_protocol
      (to_u32 (rct_eth_conn_get_uniq_id 0).1) = true ∧
    (rct_eth_conn_open demo_ether_protocol (demo_env [demo_res 1 1] []) 0
      { channels := [demo_chan] } 0 (some zeroed_res_msg)).map (fun r => r.ret)
      = some (-EPIPE) ∧
    (rct_eth_conn_open demo_ether_protocol (demo_env [] []) 0
      { channels := [demo_chan] } 0 (some zeroed_res_msg)).map (fun r => r.ret)
      = some (-EPIPE) := by
  decide

/-- C10, amended: each of the eleven public commands, called with a non-NULL `res_msg`
on an existing channel, returns `-EPIPE` when the peer rejects the command and `-EPIPE`
when a wait for the reply times out: the rejection (`-EINVAL`) and the timeout
(`-ETIMEDOUT`) of `rct_eth_conn_send_cmd` reach the caller as the same value. -/
theorem C10_rejection_and_timeout_both_EPIPE (E : ether_protocol) (env : send_cmd_env)
    (rpmsg_id_counter : Int) (rct_eth : rcar_taurus_ether_drv) (eth_ch : Nat)
    (chan : rcar_taurus_ether_channel) (out : taurus_ether_res_msg)
    (addr regnum : Int) (val : Nat) (mode : Bool) (mac_addr dest_addr : List Nat)
    (data_len buff_idx frame_type : Nat)
    (hchan : rct_eth.channels[eth_ch]? = some chan)
    (h : env.peer_rejects E (to_u32 (rct_eth_conn_get_uniq_id rpmsg_id_counter).1) = true ∨
      env.wait_times_out E (to_u32 (rct_eth_conn_get_uniq_id rpmsg_id_counter).1) = true) :
    (rct_eth_conn_open E env rpmsg_id_counter rct_eth eth_ch (some out)).map
        (fun r => r.ret) = some (-EPIPE) ∧
    (rct_eth_conn_close E env rpmsg_id_counter rct_eth eth_ch (some out)).map
        (fun r => r.ret) = some (-EPIPE) ∧
    (rct_eth_conn_mii_read E env rpmsg_id_counter rct_eth eth_ch (some out) addr regnum).map
        (fun r => r.ret) = some (-EPIPE) ∧
    (rct_eth_conn_mii_write E env rpmsg_id_counter rct_eth eth_ch (some out) addr regnum
        val).map (fun r => r.ret) = some (-EPIPE) ∧
    (rct_eth_conn_set_mode E env rpmsg_id_counter rct_eth eth_ch (some out) mode).map
        (fun r => r.ret) = some (-EPIPE) ∧
    (rct_eth_conn_get_mode E env rpmsg_id_counter rct_eth eth_ch (some out)).map
        (fun r => r.ret) = some (-EPIPE) ∧
    (rct_eth_conn_get_mac_addr E env rpmsg_id_counter rct_eth eth_ch (some out)).map
        (fun r => r.ret) = some (-EPIPE) ∧
    (rct_eth_conn_set_mac_addr E env rpmsg_id_counter rct_eth eth_ch (some out) mac_addr).map
        (fun r => r.ret) = some (-EPIPE) ∧
    (rct_eth_conn_provide_tx_buffer E env rpmsg_id_counter rct_eth eth_ch (some out)
        data_len).map (fun r => r.ret) = some (-EPIPE) ∧
    (rct_eth_conn_start_xmit E env rpmsg_id_counter rct_eth eth_ch (some out) buff_idx
        frame_type data_len dest_addr).map (fun r => r.ret) = some (-EPIPE) ∧
    (rct_eth_conn_tx_confirm E env rpmsg_id_counter rct_eth eth_ch (some out)).map
        (fun r => r.ret) = some (-EPIPE) := by
  refine ⟨?_, ?_, ?_, ?_, ?_, ?_, ?_, ?_, ?_, ?_, ?_⟩ <;>
    exact command_ret_of_rejection_or_timeout E env rpmsg_id_counter rct_eth eth_ch chan out
      _ _ hchan (fun _ => rfl) h

/-- Witness of C10, amended: the peer rejects the first command (identifier 1). -/
theorem C10_rejection_and_timeout_both_EPIPE_witness :
    ({ channels := [demo_chan] } : rcar_taurus_ether_drv).channels[0]? = some demo_chan ∧
    (demo_env [demo_res 1 1] []).peer_rejects demo_ether_protocol
      (to_u32 (rct_eth_conn_get_uniq_id 0).1) = true ∧
    (rct_eth_conn_set_mode demo_ether_protocol (demo_env [demo_res 1 1] []) 0
      { channels := [demo_chan] } 0 (some zeroed_res_msg) true).map (fun r => r.ret)
      = some (-EPIPE) :=
  ⟨rfl, by decide,
    (C10_rejection_and_timeout_both_EPIPE demo_ether_protocol (demo_env [demo_res 1 1] []) 0
      { channels := [demo_chan] } 0 demo_chan zeroed_res_msg 0 0 0 true [] [] 0 0 0 rfl
      (Or.inl (by decide))).2.2.2.2.1⟩

/-! ## Replies of a successful call -/

theorem rcar_vivid_cb_frame_eq (P : camera_protocol) (now : Nat) (v : vivid_v4l2_device)
    (slot empty_buf_cnt : Nat) (occupant : Option vb2_v4l2_buffer)
    (hocc : v.queue_buf[slot]? = some occupant) :
    ∃ v2 : vivid_v4l2_device,
      v2.state = v.state ∧ v2.format_field = v.format_field ∧
      v2.buffer_pending = v.buffer_pending ∧ v2.wake_ups = v.wake_ups ∧
      v2.sequence = (v.sequence + 1) % 2 ^ 32 ∧
      v2.queue_buf[slot]? = some none ∧
      (∀ i, i ≠ slot → v2.queue_buf[i]? = v.queue_buf[i]?) ∧
      v2.done_list = v.done_list ++
        (occupant.map (fun buf =>
          { buf with field := v.format_field, sequence := v.sequence, timestamp := now })).toList ∧
      rcar_vivid_cb_frame P now v slot empty_buf_cnt
        = some { P.vivid_fill_hw_slot v2 slot with
                 buffer_pending := set_bit slot (P.vivid_fill_hw_slot v2 slot).buffer_pending
                 wake_ups := (P.vivid_fill_hw_slot v2 slot).wake_ups +
                   (if empty_buf_cnt = 0 then 1 else 0) } := by
  have hlt : slot < v.queue_buf.length := by
    rcases Nat.lt_or_ge slot v.queue_buf.length with h | h
    · exact h
    · rw [List.getElem?_eq_none h] at hocc
      exact absurd hocc (by simp)
  cases occupant with
  | none =>
    refine ⟨{ v with sequence := (v.sequence + 1) % 2 ^ 32 }, rfl, rfl, rfl, rfl, rfl, hocc,
      fun _ _ => rfl, by simp, ?_⟩
    unfold rcar_vivid_cb_frame
    rw [hocc]
    by_cases he : empty_buf_cnt = 0 <;> simp [he]
  | some buf =>
    refine ⟨{ v with
        done_list := v.done_list ++
          [{ buf with field := v.format_field, sequence := v.sequence, timestamp := now }]
        queue_buf := v.queue_buf.set slot none
        sequence := (v.sequence + 1) % 2 ^ 32 }, rfl, rfl, rfl, rfl, rfl, ?_, ?_, rfl, ?_⟩
    · simp [hlt]
    · intro i hi
      simp [List.getElem?_set_ne (Ne.symm hi)]
    · unfold rcar_vivid_cb_frame
      rw [hocc]
      by_cases he : empty_buf_cnt = 0 <;> simp [he]

theorem rcar_vivid_cb_active (P : camera_protocol) (now : Nat) (rvivid : rcar_vivid_device)
    (res : taurus_camera_res_msg) (v v3 : vivid_v4l2_device)
    (hev : res.hdr.Result = P.R_TAURUS_CMD_NOP ∧ res.hdr.Id = 0)
    (hv : rvivid.vivid[P.TAURUS_CAMERA_EVT_CHANNEL res.hdr.Aux]? = some v)
    (hs1 : v.state ≠ vivid_dma_state.STOPPED) (hs2 : v.state ≠ vivid_dma_state.STOPPING)
    (hframe : rcar_vivid_cb_frame P now v
      (P.TAURUS_CAMERA_EVT_FRAME_READY_FRAME_ID res.hdr.Aux)
      (P.TAURUS_CAMERA_EVT_FRAME_READY_EMPTY_BUF res.hdr.Aux) = some v3) :
    rcar_vivid_cb P now rvivid res
      = some { ret := 0
               rvivid := { rvivid with
                 vivid := rvivid.vivid.set (P.TAURUS_CAMERA_EVT_CHANNEL res.hdr.Aux) v3 }
               fired := [] } ∧
    (rvivid.vivid.set (P.TAURUS_CAMERA_EVT_CHANNEL res.hdr.Aux) v3)[
      P.TAURUS_CAMERA_EVT_CHANNEL res.hdr.Aux]? = some v3 := by
  have hlt : P.TAURUS_CAMERA_EVT_CHANNEL res.hdr.Aux < rvivid.vivid.length := by
    rcases Nat.lt_or_ge (P.TAURUS_CAMERA_EVT_CHANNEL res.hdr.Aux) rvivid.vivid.length with h | h
    · exact h
    · rw [List.getElem?_eq_none h] at hv
      exact absurd hv (by simp)
  constructor
  · simp [rcar_vivid_cb, hev, hv, hs1, hs2, hframe]
  · simp [hlt]

theorem rcar_vivid_cb_stopped (P : camera_protocol) (now : Nat) (rvivid : rcar_vivid_device)
    (res : taurus_camera_res_msg) (v : vivid_v4l2_device)
    (hev : res.hdr.Result = P.R_TAURUS_CMD_NOP ∧ res.hdr.Id = 0)
    (hv : rvivid.vivid[P.TAURUS_CAMERA_EVT_CHANNEL res.hdr.Aux]? = some v)
    (hstop : v.state = vivid_dma_state.STOPPED ∨ v.state = vivid_dma_state.STOPPING) :
    rcar_vivid_cb P now rvivid res = some { ret := 0, rvivid := rvivid, fired := [] } := by
  rcases hstop with h | h <;> simp [rcar_vivid_cb, hev, hv, h]

theorem rcar_vivid_cb_frame_ready (P : camera_protocol) (now : Nat)
    (rvivid : rcar_vivid_device) (res : taurus_camera_res_msg) (v : vivid_v4l2_device)
    (occupant : Option vb2_v4l2_buffer)
    (hev : res.hdr.Result = P.R_TAURUS_CMD_NOP ∧ res.hdr.Id = 0)
    (hv : rvivid.vivid[P.TAURUS_CAMERA_EVT_CHANNEL res.hdr.Aux]? = some v)
    (hs1 : v.state ≠ vivid_dma_state.STOPPED) (hs2 : v.state ≠ vivid_dma_state.STOPPING)
    (hocc : v.queue_buf[P.TAURUS_CAMERA_EVT_FRAME_READY_FRAME_ID res.hdr.Aux]? = some occupant) :
    ∃ (r : rcar_vivid_cb_result) (v2 v3 : vivid_v4l2_device),
      rcar_vivid_cb P now rvivid res = some r ∧ r.ret = 0 ∧
      r.rvivid.vivid[P.TAURUS_CAMERA_EVT_CHANNEL res.hdr.Aux]? = some v3 ∧
      v3 = { P.vivid_fill_hw_slot v2 (P.TAURUS_CAMERA_EVT_FRAME_READY_FRAME_ID res.hdr.Aux) with
             buffer_pending := set_bit (P.TAURUS_CAMERA_EVT_FRAME_READY_FRAME_ID res.hdr.Aux)
               (P.vivid_fill_hw_slot v2
                 (P.TAURUS_CAMERA_EVT_FRAME_READY_FRAME_ID res.hdr.Aux)).buffer_pending
             wake_ups := (P.vivid_fill_hw_slot v2
                 (P.TAURUS_CAMERA_EVT_FRAME_READY_FRAME_ID res.hdr.Aux)).wake_ups +
               (if P.TAURUS_CAMERA_EVT_FRAME_READY_EMPTY_BUF res.hdr.Aux = 0 then 1 else 0) } ∧
      v2.buffer_pending = v.buffer_pending ∧ v2.wake_ups = v.wake_ups ∧
      v2.sequence = (v.sequence + 1) % 2 ^ 32 ∧
      v2.queue_buf[P.TAURUS_CAMERA_EVT_FRAME_READY_FRAME_ID res.hdr.Aux]? = some none ∧
      v2.done_list = v.done_list ++
        (occupant.map (fun buf =>
          { buf with field := v.format_field, sequence := v.sequence, timestamp := now })).toList := by
  obtain ⟨v2, _, _, h3, h4, h5, h6, _, h8, h9⟩ := rcar_vivid_cb_frame_eq P now v
    (P.TAURUS_CAMERA_EVT_FRAME_READY_FRAME_ID res.hdr.Aux)
    (P.TAURUS_CAMERA_EVT_FRAME_READY_EMPTY_BUF res.hdr.Aux) occupant hocc
  obtain ⟨hcb, hget⟩ := rcar_vivid_cb_active P now rvivid res v _ hev hv hs1 hs2 h9
  exact ⟨_, v2, _, hcb, rfl, hget, rfl, h3, h4, h5, h6, h8⟩

/-! ## Claims on the unsolicited-event router -/

/-- C12: for an unsolicited event delivered to a stream that is neither stopped nor
stopping, a buffer is handed to the consumer as done if and only if `queue_buf[slot]`
holds one: the buffer handed over is that occupant, stamped with the stream's format
field and with the sequence counter as it was before the event, and the slot is empty
when `vivid_fill_hw_slot` is called; with an empty slot no buffer is handed over and
the callback goes on to the refill all the same.  `v2` is the stream as the refill
receives it, `v3` the stream the callback leaves. -/
theorem C12_buffer_handoff (P : camera_protocol) (now : Nat)
    (rvivid : rcar_vivid_device) (res : taurus_camera_res_msg) (v : vivid_v4l2_device)
    (occupant : Option vb2_v4l2_buffer)
    (hev : res.hdr.Result = P.R_TAURUS_CMD_NOP ∧ res.hdr.Id = 0)
    (hv : rvivid.vivid[P.TAURUS_CAMERA_EVT_CHANNEL res.hdr.Aux]? = some v)
    (hs1 : v.state ≠ vivid_dma_state.STOPPED) (hs2 : v.state ≠ vivid_dma_state.STOPPING)
    (hocc : v.queue_buf[P.TAURUS_CAMERA_EVT_FRAME_READY_FRAME_ID res.hdr.Aux]? = some occupant) :
    ∃ (r : rcar_vivid_cb_result) (v2 v3 : vivid_v4l2_device),
      rcar_vivid_cb P now rvivid res = some r ∧ r.ret = 0 ∧
      r.rvivid.vivid[P.TAURUS_CAMERA_EVT_CHANNEL res.hdr.Aux]? = some v3 ∧
      v2.done_list = v.done_list ++
        (occupant.map (fun buf =>
          { buf with field := v.format_field, sequence := v.sequence, timestamp := now })).toList ∧
      v2.queue_buf[P.TAURUS_CAMERA_EVT_FRAME_READY_FRAME_ID res.hdr.Aux]? = some none ∧
      v3.done_list = (P.vivid_fill_hw_slot v2
        (P.TAURUS_CAMERA_EVT_FRAME_READY_FRAME_ID res.hdr.Aux)).done_list ∧
      v3.queue_buf = (P.vivid_fill_hw_slot v2
        (P.TAURUS_CAMERA_EVT_FRAME_READY_FRAME_ID res.hdr.Aux)).queue_buf ∧
      (P.fill_keeps → v3.done_list = v2.done_list) := by
  obtain ⟨r, v2, v3, hr, hret, hget, hv3, _, _, _, hq, hd⟩ :=
    rcar_vivid_cb_frame_ready P now rvivid res v occupant hev hv hs1 hs2 hocc
  refine ⟨r, v2, v3, hr, hret, hget, hd, hq, ?_, ?_, ?_⟩
  · rw [hv3]
  · rw [hv3]
  · intro hk
    rw [hv3]
    exact (hk v2 _).2.2.1

/-- Witness of C12: slot 1 of the running stream holds the buffer 4096; the event hands
it over with sequence 41 and field 1. -/
theorem C12_buffer_handoff_witness :
    ((demo_frame_ready 1 3).hdr.Result = demo_camera_protocol.R_TAURUS_CMD_NOP ∧
      (demo_frame_ready 1 3).hdr.Id = 0) ∧
    demo_stream.queue_buf[1]?
      = some (some { addr := 4096, field := 0, sequence := 0, timestamp := 0 }) ∧
    ∃ (r : rcar_vivid_cb_result) (v2 v3 : vivid_v4l2_device),
      rcar_vivid_cb demo_camera_protocol 5
        { vivid := [demo_stream], taurus_event_list_head := [] } (demo_frame_ready 1 3)
        = some r ∧ r.ret = 0 ∧
      r.rvivid.vivid[0]? = some v3 ∧
      v2.done_list = [] ++ [{ addr := 4096, field := 1, sequence := 41, timestamp := 5 }] ∧
      v2.queue_buf[1]? = some none ∧
      v3.done_list = (demo_camera_protocol.vivid_fill_hw_slot v2 1).done_list ∧
      v3.queue_buf = (demo_camera_protocol.vivid_fill_hw_slot v2 1).queue_buf ∧
      (demo_camera_protocol.fill_keeps → v3.done_list = v2.done_list) :=
  ⟨by decide, by decide,
    C12_buffer_handoff demo_camera_protocol 5
      { vivid := [demo_stream], taurus_event_list_head := [] } (demo_frame_ready 1 3)
      demo_stream (some { addr := 4096, field := 0, sequence := 0, timestamp := 0 })
      (by decide) (by decide) (by decide) (by decide) (by decide)⟩

theorem set_bit_testBit (nr word i : Nat) :
    (set_bit nr word).testBit i = (word.testBit i || decide (nr = i)) := by
  simp [set_bit, Nat.one_shiftLeft, Nat.testBit_two_pow]

/-- Counterexample to C13 as stated: the sequence counter of the stream is 4294967295
when the event comes; after the callback it is 0. -/
theorem C13_sequence_wraps :
    (rcar_vivid_cb demo_camera_protocol 5
      { vivid := [{ demo_stream with sequence := 4294967295 }], taurus_event_list_head := [] }
      (demo_frame_ready 0 3)).map (fun r => r.rvivid.vivid.map (fun v => v.sequence))
      = some [0] ∧
    (0 : Nat) ≠ 4294967295 + 1 := by
  decide

/-- C13, amended: for an unsolicited event delivered to a stream that is neither stopped
nor stopping, whether or not the slot held a buffer, the stream after `rcar_vivid_cb` has
the sequence counter increased by 1 modulo 2^32 (by exactly 1 unless it was 2^32 - 1)
and bit `slot` of `buffer_pending` set, every other bit being as it was; the refill is
taken to leave the counter and the mask alone. -/
theorem C13_sequence_and_pending (P : camera_protocol) (now : Nat)
    (rvivid : rcar_vivid_device) (res : taurus_camera_res_msg) (v : vivid_v4l2_device)
    (occupant : Option vb2_v4l2_buffer)
    (hev : res.hdr.Result = P.R_TAURUS_CMD_NOP ∧ res.hdr.Id = 0)
    (hv : rvivid.vivid[P.TAURUS_CAMERA_EVT_CHANNEL res.hdr.Aux]? = some v)
    (hs1 : v.state ≠ vivid_dma_state.STOPPED) (hs2 : v.state ≠ vivid_dma_state.STOPPING)
    (hocc : v.queue_buf[P.TAURUS_CAMERA_EVT_FRAME_READY_FRAME_ID res.hdr.Aux]? = some occupant)
    (hk : P.fill_keeps) :
    ∃ (r : rcar_vivid_cb_result) (v3 : vivid_v4l2_device),
      rcar_vivid_cb P now rvivid res = some r ∧
      r.rvivid.vivid[P.TAURUS_CAMERA_EVT_CHANNEL res.hdr.Aux]? = some v3 ∧
      v3.sequence = (v.sequence + 1) % 2 ^ 32 ∧
      (v.sequence + 1 < 2 ^ 32 → v3.sequence = v.sequence + 1) ∧
      v3.buffer_pending.testBit (P.TAURUS_CAMERA_EVT_FRAME_READY_FRAME_ID res.hdr.Aux) = true ∧
      (∀ i, i ≠ P.TAURUS_CAMERA_EVT_FRAME_READY_FRAME_ID res.hdr.Aux →
        v3.buffer_pending.testBit i = v.buffer_pending.testBit i) := by
  obtain ⟨r, v2, v3, hr, _, hget, hv3, hp, _, hseq, _, _⟩ :=
    rcar_vivid_cb_frame_ready P now rvivid res v occupant hev hv hs1 hs2 hocc
  have hs : v3.sequence = (v.sequence + 1) % 2 ^ 32 := by
    rw [hv3]
    exact ((hk v2 _).1).trans hseq
  have hb : v3.buffer_pending
      = set_bit (P.TAURUS_CAMERA_EVT_FRAME_READY_FRAME_ID res.hdr.Aux) v.buffer_pending := by
    rw [hv3]
    show set_bit _ _ = _
    rw [(hk v2 _).2.1, hp]
  refine ⟨r, v3, hr, hget, hs, ?_, ?_, ?_⟩
  · intro hlt
    rw [hs, Nat.mod_eq_of_lt hlt]
  · rw [hb, set_bit_testBit]
    simp
  · intro i hi
    rw [hb, set_bit_testBit]
    simp [Ne.symm hi]

/-- Witness of C13, amended: the event of slot 1 takes the counter from 41 to 42 and
sets bit 1 of the mask. -/
theorem C13_sequence_and_pending_witness :
    demo_camera_protocol.fill_keeps ∧
    ∃ (r : rcar_vivid_cb_result) (v3 : vivid_v4l2_device),
      rcar_vivid_cb demo_camera_protocol 5
        { vivid := [demo_stream], taurus_event_list_head := [] } (demo_frame_ready 1 3)
        = some r ∧
      r.rvivid.vivid[0]? = some v3 ∧
      v3.sequence = (41 + 1) % 2 ^ 32 ∧
      (41 + 1 < 2 ^ 32 → v3.sequence = 41 + 1) ∧
      v3.buffer_pending.testBit 1 = true ∧
      (∀ i, i ≠ 1 → v3.buffer_pending.testBit i = (0 : Nat).testBit i) :=
  ⟨fun _ _ => ⟨rfl, rfl, rfl, rfl⟩,
    C13_sequence_and_pending demo_camera_protocol 5
      { vivid := [demo_stream], taurus_event_list_head := [] } (demo_frame_ready 1 3)
      demo_stream (some { addr := 4096, field := 0, sequence := 0, timestamp := 0 })
      (by decide) (by decide) (by decide) (by decide) (by decide)
      (fun _ _ => ⟨rfl, rfl, rfl, rfl⟩)⟩

/-- C14: for an unsolicited event delivered to a stream that is neither stopped nor
stopping, `rcar_vivid_cb` wakes the buffer-pending wait queue once when the count of
empty buffers of the event is 0 and not at all otherwise: the wake-ups of the stream
are those the refill leaves plus one or none, the refill itself being taken not to
wake the queue. -/
theorem C14_wake_batching (P : camera_protocol) (now : Nat)
    (rvivid : rcar_vivid_device) (res : taurus_camera_res_msg) (v : vivid_v4l2_device)
    (occupant : Option vb2_v4l2_buffer)
    (hev : res.hdr.Result = P.R_TAURUS_CMD_NOP ∧ res.hdr.Id = 0)
    (hv : rvivid.vivid[P.TAURUS_CAMERA_EVT_CHANNEL res.hdr.Aux]? = some v)
    (hs1 : v.state ≠ vivid_dma_state.STOPPED) (hs2 : v.state ≠ vivid_dma_state.STOPPING)
    (hocc : v.queue_buf[P.TAURUS_CAMERA_EVT_FRAME_READY_FRAME_ID res.hdr.Aux]? = some occupant) :
    ∃ (r : rcar_vivid_cb_result) (v2 v3 : vivid_v4l2_device),
      rcar_vivid_cb P now rvivid res = some r ∧
      r.rvivid.vivid[P.TAURUS_CAMERA_EVT_CHANNEL res.hdr.Aux]? = some v3 ∧
      v3.wake_ups
        = (P.vivid_fill_hw_slot v2
            (P.TAURUS_CAMERA_EVT_FRAME_READY_FRAME_ID res.hdr.Aux)).wake_ups +
          (if P.TAURUS_CAMERA_EVT_FRAME_READY_EMPTY_BUF res.hdr.Aux = 0 then 1 else 0) ∧
      (P.fill_keeps →
        v3.wake_ups = v.wake_ups +
          (if P.TAURUS_CAMERA_EVT_FRAME_READY_EMPTY_BUF res.hdr.Aux = 0 then 1 else 0)) := by
  obtain ⟨r, v2, v3, hr, _, hget, hv3, _, hw, _, _, _⟩ :=
    rcar_vivid_cb_frame_ready P now rvivid res v occupant hev hv hs1 hs2 hocc
  refine ⟨r, v2, v3, hr, hget, by rw [hv3], ?_⟩
  intro hk
  rw [hv3]
  show _ + _ = _
  rw [(hk v2 _).2.2.2, hw]

/-- Witness of C14: with 3 empty buffers left the queue is not woken. -/
theorem C14_wake_batching_witness :
    ((demo_frame_ready 1 3).hdr.Result = demo_camera_protocol.R_TAURUS_CMD_NOP ∧
      (demo_frame_ready 1 3).hdr.Id = 0) ∧
    ∃ (r : rcar_vivid_cb_result) (v2 v3 : vivid_v4l2_device),
      rcar_vivid_cb demo_camera_protocol 5
        { vivid := [demo_stream], taurus_event_list_head := [] } (demo_frame_ready 1 3)
        = some r ∧
      r.rvivid.vivid[0]? = some v3 ∧
      v3.wake_ups = (demo_camera_protocol.vivid_fill_hw_slot v2 1).wake_ups + 0 ∧
      (demo_camera_protocol.fill_keeps → v3.wake_ups = 0 + 0) :=
  ⟨by decide,
    C14_wake_batching demo_camera_protocol 5
      { vivid := [demo_stream], taurus_event_list_head := [] } (demo_frame_ready 1 3)
      demo_stream (some { addr := 4096, field := 0, sequence := 0, timestamp := 0 })
      (by decide) (by decide) (by decide) (by decide) (by decide)⟩

/-- C15: an unsolicited event addressed to a stream that is stopped or stopping makes
`rcar_vivid_cb` return 0 and leaves the device as it was: no buffer handed over, no
slot cleared or refilled, the sequence counter and the pending mask as they were, and no
wake-up, whatever the count of empty buffers. -/
theorem C15_stopped_stream_suppression (P : camera_protocol) (now : Nat)
    (rvivid : rcar_vivid_device) (res : taurus_camera_res_msg) (v : vivid_v4l2_device)
    (hev : res.hdr.Result = P.R_TAURUS_CMD_NOP ∧ res.hdr.Id = 0)
    (hv : rvivid.vivid[P.TAURUS_CAMERA_EVT_CHANNEL res.hdr.Aux]? = some v)
    (hstop : v.state = vivid_dma_state.STOPPED ∨ v.state = vivid_dma_state.STOPPING) :
    rcar_vivid_cb P now rvivid res = some { ret := 0, rvivid := rvivid, fired := [] } :=
  rcar_vivid_cb_stopped P now rvivid res v hev hv hstop

/-- Witness of C15: the stream is stopping and the event has no empty buffer left. -/
theorem C15_stopped_stream_suppression_witness :
    ((demo_frame_ready 1 0).hdr.Result = demo_camera_protocol.R_TAURUS_CMD_NOP ∧
      (demo_frame_ready 1 0).hdr.Id = 0) ∧
    rcar_vivid_cb demo_camera_protocol 5
        { vivid := [{ demo_stream with state := vivid_dma_state.STOPPING }]
          taurus_event_list_head := [] } (demo_frame_ready 1 0)
      = some { ret := 0
               rvivid := { vivid := [{ demo_stream with state := vivid_dma_state.STOPPING }]
                           taurus_event_list_head := [] }
               fired := [] } :=
  ⟨by decide,
    C15_stopped_stream_suppression demo_camera_protocol 5
      { vivid := [{ demo_stream with state := vivid_dma_state.STOPPING }]
        taurus_event_list_head := [] } (demo_frame_ready 1 0)
      { demo_stream with state := vivid_dma_state.STOPPING } (by decide) (by decide)
      (Or.inr rfl)⟩

/-! ## The identifier generator -/

theorem wrap_int_add (a b : Int) : wrap_int (wrap_int a + b) = wrap_int (a + b) := by
  unfold wrap_int
  omega

theorem get_uniq_id_calls_eq (n : Nat) (c : Int) :
    rct_eth_conn_get_uniq_id_calls n c
      = (List.range n).map (fun (k : Nat) => wrap_int (c + (k : Int) + 1)) := by
  induction n generalizing c with
  | zero => rfl
  | succ n ih =>
    rw [rct_eth_conn_get_uniq_id_calls, ih, List.range_succ_eq_map]
    simp only [rct_eth_conn_get_uniq_id, List.map_cons, List.map_map, Nat.cast_zero, add_zero]
    congr 1
    apply List.map_congr_left
    intro k _
    simp only [Function.comp, Nat.cast_succ]
    rw [add_assoc (wrap_int (c + 1)), wrap_int_add]
    congr 1
    ring

theorem wrap_int_inj (c : Int) (i j : Nat) (hi : i < 2 ^ 32) (hj : j < 2 ^ 32)
    (h : wrap_int (c + (i : Int) + 1) = wrap_int (c + (j : Int) + 1)) : i = j := by
  unfold wrap_int at h
  have hi2 : (i : Int) < 4294967296 := by exact_mod_cast hi
  have hj2 : (j : Int) < 4294967296 := by exact_mod_cast hj
  omega

theorem send_cmd_sends (E : ether_protocol) (env : send_cmd_env)
    (chan : rcar_taurus_ether_channel) (cmd_msg : taurus_ether_cmd_msg)
    (res_msg : taurus_ether_res_msg) (m : taurus_ether_cmd_msg)
    (hm : send_cmd_step.rpmsg_send m ∈ (rct_eth_conn_send_cmd E env chan cmd_msg res_msg).steps) :
    m = cmd_msg := by
  cases hevent : env.event with
  | none => simp [rct_eth_conn_send_cmd, hevent] at hm
  | some addr =>
    cases hresult : env.result with
    | false => simp [rct_eth_conn_send_cmd, hevent, hresult] at hm
    | true =>
      by_cases hsend : env.rpmsg_send = 0
      · cases hsig : env.wait_ack.signal with
        | true =>
          rw [send_cmd_ack_interrupted E env chan cmd_msg res_msg addr hevent hresult hsend
            hsig] at hm
          simpa using hm
        | false =>
          cases hlast : (env.acks E.R_TAURUS_CMD_NOP cmd_msg.hdr.Id).getLast? with
          | none =>
            rw [send_cmd_ack_timed_out E env chan cmd_msg res_msg addr hevent hresult hsend
              hsig (List.getLast?_eq_none_iff.mp hlast)] at hm
            simpa using hm
          | some last =>
            by_cases hnack : last.hdr.Result = E.R_TAURUS_RES_NACK
            · rw [send_cmd_rejected E env chan cmd_msg res_msg addr last hevent hresult hsend
                hsig hlast hnack] at hm
              simpa using hm
            · cases hsig2 : env.wait_completed.signal with
              | true =>
                rw [send_cmd_done_interrupted E env chan cmd_msg res_msg addr last hevent
                  hresult hsend hsig hlast hnack hsig2] at hm
                simpa using hm
              | false =>
                by_cases hone : (env.replies E.R_TAURUS_CMD_NOP cmd_msg.hdr.Id).length < 2
                · rw [send_cmd_done_timed_out E env chan cmd_msg res_msg addr last hevent
                    hresult hsend hsig hlast hnack hsig2 hone] at hm
                  simpa using hm
                · rw [send_cmd_success E env chan cmd_msg res_msg addr last hevent
                    hresult hsend hsig hlast hnack hsig2 (by omega)] at hm
                  simpa using hm
      · rw [send_cmd_send_failed E env chan cmd_msg res_msg addr hevent hresult hsend] at hm
        simpa using hm

theorem command_sends (E : ether_protocol) (env : send_cmd_env)
    (rpmsg_id_counter : Int) (rct_eth : rcar_taurus_ether_drv) (eth_ch : Nat)
    (res_msg : Option taurus_ether_res_msg)
    (build : Nat → taurus_ether_cmd_msg) (res_field : List Nat → Nat)
    (hid : ∀ id, (build id).hdr.Id = id) (r : eth_conn_result)
    (hr : rct_eth_conn_command E env rpmsg_id_counter rct_eth eth_ch res_msg build res_field
      = some r)
    (m : taurus_ether_cmd_msg) (hm : send_cmd_step.rpmsg_send m ∈ r.steps) :
    m.hdr.Id = to_u32 (rct_eth_conn_get_uniq_id rpmsg_id_counter).1 := by
  unfold rct_eth_conn_command at hr
  cases hchan : rct_eth.channels[eth_ch]? with
  | none => simp [hchan] at hr
  | some chan =>
    cases res_msg with
    | none =>
      simp only [hchan, Option.some.injEq] at hr
      subst hr
      simp at hm
    | some out =>
      simp only [hchan, Option.some.injEq] at hr
      subst hr
      rw [send_cmd_sends E env chan _ out m hm, hid]

/-- Counterexample to C16 as stated: of 2^32 + 1 consecutive calls from the counter 0,
the first and the last return the same identifier, 1. -/
theorem C16_identifier_repeats :
    (rct_eth_conn_get_uniq_id_calls (2 ^ 32 + 1) 0)[0]? = some 1 ∧
    (rct_eth_conn_get_uniq_id_calls (2 ^ 32 + 1) 0)[2 ^ 32]? = some 1 ∧
    ¬ (rct_eth_conn_get_uniq_id_calls (2 ^ 32 + 1) 0).Nodup := by
  have h0 : (rct_eth_conn_get_uniq_id_calls (2 ^ 32 + 1) 0)[0]? = some 1 := by
    rw [get_uniq_id_calls_eq, List.getElem?_map, List.getElem?_range (by norm_num)]
    simp [wrap_int]
  have h1 : (rct_eth_conn_get_uniq_id_calls (2 ^ 32 + 1) 0)[2 ^ 32]? = some 1 := by
    rw [get_uniq_id_calls_eq, List.getElem?_map, List.getElem?_range (by norm_num)]
    simp [wrap_int]
  refine ⟨h0, h1, ?_⟩
  intro hnd
  rw [get_uniq_id_calls_eq] at hnd
  have := List.inj_on_of_nodup_map hnd (x := 0) (by simp) (y := 2 ^ 32) (by simp)
    (by simp [wrap_int])
  norm_num at this

/-- C16, amended: for every N up to 2^32, the identifiers returned by N consecutive
calls of `rct_eth_conn_get_uniq_id` are pairwise distinct, whatever the counter was
before the first call. -/
theorem C16_identifiers_distinct (n : Nat) (rpmsg_id_counter : Int) (hn : n ≤ 2 ^ 32) :
    (rct_eth_conn_get_uniq_id_calls n rpmsg_id_counter).Nodup := by
  rw [get_uniq_id_calls_eq]
  apply List.Nodup.map_on _ (List.nodup_range n)
  intro i hi j hj h
  rw [List.mem_range] at hi hj
  exact wrap_int_inj rpmsg_id_counter i j (by omega) (by omega) h

/-- Witness of C16, amended: five calls from the counter 0 return 1, 2, 3, 4, 5. -/
theorem C16_identifiers_distinct_witness :
    5 ≤ 2 ^ 32 ∧ rct_eth_conn_get_uniq_id_calls 5 0 = [1, 2, 3, 4, 5] ∧
    (rct_eth_conn_get_uniq_id_calls 5 0).Nodup :=
  ⟨by decide, by decide, C16_identifiers_distinct 5 0 (by decide)⟩

/-- Counterexample to C17 as stated: the call that finds the counter at -1, which is
the 2^32-th call after the counter was 0, returns 0, and `rct_eth_conn_open` then sends
a command envelope whose `hdr.Id` is 0. -/
theorem C17_identifier_zero :
    (rct_eth_conn_get_uniq_id_calls (2 ^ 32) 0)[2 ^ 32 - 1]? = some 0 ∧
    rct_eth_conn_get_uniq_id (-1) = (0, 0) ∧
    (rct_eth_conn_open demo_ether_protocol (demo_env [] []) (-1) { channels := [demo_chan] } 0
      (some zeroed_res_msg)).map (fun r => r.steps.take 2)
      = some [send_cmd_step.list_add 8192,
          send_cmd_step.rpmsg_send
            { hdr := { Id := 0, Channel := 0, Cmd := 1, Par1 := 61440 }, type := 61440
              params := taurus_ether_cmd_params.eth_init 0 }] := by
  refine ⟨?_, by decide, by decide⟩
  rw [get_uniq_id_calls_eq, List.getElem?_map, List.getElem?_range (by norm_num)]
  simp [wrap_int]

/-- C17, amended: the identifiers that the first 2^32 - 1 calls of
`rct_eth_conn_get_uniq_id` return after the counter was 0 are non-zero, also as the
`u32` that goes into `hdr.Id`; and every command envelope a public command sends
carries in `hdr.Id` the identifier the command has just drawn. -/
theorem C17_identifiers_nonzero (n : Nat) (hn : n ≤ 2 ^ 32 - 1)
    (E : ether_protocol) (env : send_cmd_env)
    (rpmsg_id_counter : Int) (rct_eth : rcar_taurus_ether_drv) (eth_ch : Nat)
    (res_msg : Option taurus_ether_res_msg)
    (addr regnum : Int) (val : Nat) (mode : Bool) (mac_addr dest_addr : List Nat)
    (data_len buff_idx frame_type : Nat) :
    (∀ id ∈ rct_eth_conn_get_uniq_id_calls n 0, id ≠ 0 ∧ to_u32 id ≠ 0) ∧
    (∀ r m, rct_eth_conn_open E env rpmsg_id_counter rct_eth eth_ch res_msg = some r →
      send_cmd_step.rpmsg_send m ∈ r.steps →
      m.hdr.Id = to_u32 (rct_eth_conn_get_uniq_id rpmsg_id_counter).1) ∧
    (∀ r m, rct_eth_conn_close E env rpmsg_id_counter rct_eth eth_ch res_msg = some r →
      send_cmd_step.rpmsg_send m ∈ r.steps →
      m.hdr.Id = to_u32 (rct_eth_conn_get_uniq_id rpmsg_id_counter).1) ∧
    (∀ r m, rct_eth_conn_mii_read E env rpmsg_id_counter rct_eth eth_ch res_msg addr regnum
        = some r →
      send_cmd_step.rpmsg_send m ∈ r.steps →
      m.hdr.Id = to_u32 (rct_eth_conn_get_uniq_id rpmsg_id_counter).1) ∧
    (∀ r m, rct_eth_conn_mii_write E env rpmsg_id_counter rct_eth eth_ch res_msg addr regnum
        val = some r →
      send_cmd_step.rpmsg_send m ∈ r.steps →
      m.hdr.Id = to_u32 (rct_eth_conn_get_uniq_id rpmsg_id_counter).1) ∧
    (∀ r m, rct_eth_conn_set_mode E env rpmsg_id_counter rct_eth eth_ch res_msg mode
        = some r →
      send_cmd_step.rpmsg_send m ∈ r.steps →
      m.hdr.Id = to_u32 (rct_eth_conn_get_uniq_id rpmsg_id_counter).1) ∧
    (∀ r m, rct_eth_conn_get_mode E env rpmsg_id_counter rct_eth eth_ch res_msg = some r →
      send_cmd_step.rpmsg_send m ∈ r.steps →
      m.hdr.Id = to_u32 (rct_eth_conn_get_uniq_id rpmsg_id_counter).1) ∧
    (∀ r m, rct_eth_conn_get_mac_addr E env rpmsg_id_counter rct_eth eth_ch res_msg
        = some r →
      send_cmd_step.rpmsg_send m ∈ r.steps →
      m.hdr.Id = to_u32 (rct_eth_conn_get_uniq_id rpmsg_id_counter).1) ∧
    (∀ r m, rct_eth_conn_set_mac_addr E env rpmsg_id_counter rct_eth eth_ch res_msg mac_addr
        = some r →
      send_cmd_step.rpmsg_send m ∈ r.steps →
      m.hdr.Id = to_u32 (rct_eth_conn_get_uniq_id rpmsg_id_counter).1) ∧
    (∀ r m, rct_eth_conn_provide_tx_buffer E env rpmsg_id_counter rct_eth eth_ch res_msg
        data_len = some r →
      send_cmd_step.rpmsg_send m ∈ r.steps →
      m.hdr.Id = to_u32 (rct_eth_conn_get_uniq_id rpmsg_id_counter).1) ∧
    (∀ r m, rct_eth_conn_start_xmit E env rpmsg_id_counter rct_eth eth_ch res_msg buff_idx
        frame_type data_len dest_addr = some r →
      send_cmd_step.rpmsg_send m ∈ r.steps →
      m.hdr.Id = to_u32 (rct_eth_conn_get_uniq_id rpmsg_id_counter).1) ∧
    (∀ r m, rct_eth_conn_tx_confirm E env rpmsg_id_counter rct_eth eth_ch res_msg = some r →
      send_cmd_step.rpmsg_send m ∈ r.steps →
      m.hdr.Id = to_u32 (rct_eth_conn_get_uniq_id rpmsg_id_counter).1) := by
  refine ⟨?_, ?_, ?_, ?_, ?_, ?_, ?_, ?_, ?_, ?_, ?_, ?_⟩
  · intro id hid
    rw [get_uniq_id_calls_eq, List.mem_map] at hid
    obtain ⟨k, hk, rfl⟩ := hid
    rw [List.mem_range] at hk
    have hk2 : (k : Int) < 4294967295 := by
      have : k < 2 ^ 32 - 1 := by omega
      exact_mod_cast this
    unfold to_u32 wrap_int
    constructor <;> omega
  all_goals
    intro r m hr hm
    exact command_sends E env rpmsg_id_counter rct_eth eth_ch res_msg _ _ (fun _ => rfl) r hr
      m hm

/-- Witness of C17, amended: the first three calls return 1, 2, 3. -/
theorem C17_identifiers_nonzero_witness :
    3 ≤ 2 ^ 32 - 1 ∧ rct_eth_conn_get_uniq_id_calls 3 0 = [1, 2, 3] ∧
    ∀ id ∈ rct_eth_conn_get_uniq_id_calls 3 0, id ≠ 0 ∧ to_u32 id ≠ 0 :=
  ⟨by decide, by decide,
    (C17_identifiers_nonzero 3 (by decide) demo_ether_protocol (demo_env [] []) 0
      { channels := [demo_chan] } 0 (some zeroed_res_msg) 0 0 0 true [] [] 0 0 0).1⟩

/-! ## Claims on the side channel, the scan order and the address translation -/

theorem rcar_mfis_channel_get_eq_none (dev : rcar_mfis_dev) (channel : Nat) :
    rcar_mfis_channel_get dev channel = none
      ↔ ∀ ch ∈ dev.channels, ¬ (ch.initialized = true ∧ ch.id = channel) := by
  simp [rcar_mfis_channel_get, List.find?_eq_none]

/-- C18: `rcar_mfis_trigger_interrupt(channel, msg)` returns `-EINVAL` and writes no
register when no initialised channel has the identifier `channel`; for an initialised
channel it returns `-EBUSY` and writes no register exactly when bit 0 of
`IICR(channel)` is set, and otherwise writes `msg.mbr` to `IMBR(channel)`, then
`(msg.icr << 1) | 1` to `IICR(channel)`, and returns 0. -/
theorem C18_busy_gated_trigger (dev : rcar_mfis_dev) (reg_read : Int → Nat) (channel : Int)
    (msg : rcar_mfis_msg) :
    ((∀ ch ∈ dev.channels, ¬ (ch.initialized = true ∧ ch.id = to_u32 channel)) →
      rcar_mfis_trigger_interrupt (some dev) reg_read channel msg
        = some { ret := -EINVAL, writes := [] }) ∧
    ((∃ ch ∈ dev.channels, ch.initialized = true ∧ ch.id = to_u32 channel) →
      (reg_read (IICR channel) % 2 = 1 →
        rcar_mfis_trigger_interrupt (some dev) reg_read channel msg
          = some { ret := -EBUSY, writes := [] }) ∧
      (reg_read (IICR channel) % 2 = 0 →
        rcar_mfis_trigger_interrupt (some dev) reg_read channel msg
          = some { ret := 0
                   writes := [(IMBR channel, msg.mbr),
                              (IICR channel, ((msg.icr <<< 1) % 2 ^ 32) ||| 1)] }) ∧
      ((rcar_mfis_trigger_interrupt (some dev) reg_read channel msg).map (fun r => r.ret)
          = some (-EBUSY)
        ↔ (reg_read (IICR channel)).testBit 0 = true)) := by
  constructor
  · intro hnone
    have h := (rcar_mfis_channel_get_eq_none dev (to_u32 channel)).mpr hnone
    simp [rcar_mfis_trigger_interrupt, h]
  · intro hsome
    have hne : rcar_mfis_channel_get dev (to_u32 channel) ≠ none := by
      intro h
      obtain ⟨ch, hch, hp⟩ := hsome
      exact (rcar_mfis_channel_get_eq_none dev (to_u32 channel)).mp h ch hch hp
    obtain ⟨ch, hch⟩ := Option.ne_none_iff_exists'.mp hne
    have hbit : (reg_read (IICR channel)).testBit 0
        = decide (reg_read (IICR channel) % 2 = 1) := by
      simp [Nat.testBit_zero]
    refine ⟨?_, ?_, ?_⟩
    · intro h1
      simp [rcar_mfis_trigger_interrupt, hch, h1]
    · intro h0
      simp [rcar_mfis_trigger_interrupt, hch, h0]
    · rw [hbit]
      rcases Nat.mod_two_eq_zero_or_one (reg_read (IICR channel)) with h0 | h1
      · simp [rcar_mfis_trigger_interrupt, hch, h0, EBUSY]
      · simp [rcar_mfis_trigger_interrupt, hch, h1]

/-- Witness of C18: channel 0 is initialised and its `IICR` reads 0; the message with
`icr` 3 and `mbr` 9 is written. -/
theorem C18_busy_gated_trigger_witness :
    (∃ ch ∈ demo_mfis_dev.channels, ch.initialized = true ∧ ch.id = to_u32 0) ∧
    (fun _ => 0 : Int → Nat) (IICR 0) % 2 = 0 ∧
    rcar_mfis_trigger_interrupt (some demo_mfis_dev) (fun _ => 0) 0 { icr := 3, mbr := 9 }
      = some { ret := 0
               writes := [(IMBR 0, 9), (IICR 0, ((3 <<< 1) % 2 ^ 32) ||| 1)] } :=
  ⟨⟨{ initialized := true, id := 0 }, by decide, by decide⟩, rfl,
    ((C18_busy_gated_trigger demo_mfis_dev (fun _ => 0) 0 { icr := 3, mbr := 9 }).2
      ⟨{ initialized := true, id := 0 }, by decide, by decide⟩).2.1 rfl⟩

theorem register_all_eq (head ws : List taurus_event_list) :
    register_all head ws = ws.reverse ++ head := by
  induction ws generalizing head with
  | nil => rfl
  | cons w ws ih =>
    simp only [register_all, List.foldl_cons] at ih ⊢
    rw [ih]
    simp [list_add]

/-- Counterexample to C19 as stated: the pending event 4096 is registered first, the
pending event 8192 second, both with the identifier 7; the scan serves 4096, the one
registered earlier, before 8192. -/
theorem C19_oldest_visited_first :
    register_all [] [demo_event 4096 7, demo_event 8192 7]
      = [demo_event 8192 7, demo_event 4096 7] ∧
    (rcar_vivid_cb_scan (register_all [] [demo_event 4096 7, demo_event 8192 7])
      (demo_res 7 0)).2 = [(4096, taurus_signal.ack), (8192, taurus_signal.ack)] := by
  decide

/-- C19, amended: with pending events registered by `list_add` on the head of the list
and scanned by `list_for_each_prev`, the matching pending events are visited in
oldest-first order: the completions are posted in the order of registration, a pending
event registered earlier being served before one registered later. -/
theorem C19_scan_order (ws : List taurus_event_list) (res : taurus_res_msg) :
    (rcar_vivid_cb_scan (register_all [] ws) res).2
      = (ws.filter (fun w => decide (w.id = res.hdr.Id))).map
          (fun w => (w.addr,
            if w.ack_received then taurus_signal.completed else taurus_signal.ack)) := by
  rw [register_all_eq, List.append_nil, rcar_vivid_cb_scan, scan_snd_eq]
  simp [List.filter_reverse]

/-- The translation on an address inside the region, less than 2^31 bytes from its
start: the address returned is `mem_va + (da - mem_da)`. -/
theorem rcar_cr7_da_to_va_in_range (rrproc : rcar_cr7_rproc) (da len : Nat)
    (hda : rrproc.mem_da ≤ da) (hoff : da - rrproc.mem_da < 2 ^ 31)
    (hend : da + len ≤ rrproc.mem_da + rrproc.mem_len) (hlen : rrproc.mem_len < 2 ^ 64) :
    rcar_cr7_da_to_va rrproc da len = some (rrproc.mem_va + (da - rrproc.mem_da)) := by
  have hoff2 : (da : Int) - (rrproc.mem_da : Int) < 2147483648 := by omega
  have h1 : wrap_int (((da : Int) - (rrproc.mem_da : Int)) % 2 ^ 64)
      = ((da - rrproc.mem_da : Nat) : Int) := by
    unfold wrap_int
    omega
  have h2 : (da - rrproc.mem_da + len) % 2 ^ 64 = da - rrproc.mem_da + len := by
    apply Nat.mod_eq_of_lt
    omega
  simp only [rcar_cr7_da_to_va, h1, Int.toNat_ofNat, h2]
  rw [if_neg]
  intro h
  rcases h with h | h
  · omega
  · omega

/-- C20, the code at failing inputs: for the region of 16 MiB at 0x40000000, the device
address 0x140000000, which is 4 GiB above the start of the region, is translated to
`mem_va` (the 32-bit `offset` is 0), and the address 0x40000001 with the length
2^64 - 1 is translated to `mem_va + 1` (`offset + len` wraps to 0 in `size_t`); in
both cases `da + len` is beyond the end of the region and the claim has NULL. -/
theorem C20_da_to_va_outside_region :
    rcar_cr7_da_to_va demo_rproc 0x140000000 0x1000 = some demo_rproc.mem_va ∧
    ¬ (0x140000000 + 0x1000 ≤ demo_rproc.mem_da + demo_rproc.mem_len) ∧
    rcar_cr7_da_to_va demo_rproc 0x40000001 (2 ^ 64 - 1) = some (demo_rproc.mem_va + 1) ∧
    ¬ (0x40000001 + (2 ^ 64 - 1) ≤ demo_rproc.mem_da + demo_rproc.mem_len) := by
  decide

/-! ## Probe of the camera device -/

theorem rcar_vivid_probe_loop_error_ne_zero (env : probe_env) (n i : Nat)
    (rvivid rvivid1 : rcar_vivid_probe_device) (ret : Int)
    (h : rcar_vivid_probe_loop env n i rvivid = probe_exit.error ret rvivid1) : ret ≠ 0 := by
  induction n generalizing i rvivid with
  | zero => simp [rcar_vivid_probe_loop] at h
  | succ n ih =>
    unfold rcar_vivid_probe_loop at h
    split at h
    · cases h
      decide
    · split at h
      · rename_i hq
        cases h
        exact hq
      · split at h
        · rename_i hr
          cases h
          exact hr
        · exact ih _ _ h

/-- The jump to `error` with `ret` still 0 is the one taken for a channel count above
`MAX_VIVID_DEVICE_NUM` after a successful `vivid_taurus_get_info`; every other jump to
`error` carries a non-zero `ret`. -/
theorem rcar_vivid_probe_body_error_zero (MAX : Nat) (env : probe_env)
    (rvivid : rcar_vivid_probe_device)
    (h : rcar_vivid_probe_body MAX env = probe_exit.error 0 rvivid) :
    env.get_info = 0 ∧ env.channel_num > (MAX : Int) ∧
      rvivid = { channel_num := env.channel_num, vivid := List.replicate MAX none } := by
  unfold rcar_vivid_probe_body at h
  split at h
  · cases h
  · split at h
    · rename_i hc
      obtain ⟨h0, hrv⟩ := probe_exit.error.inj h
      rcases hc with hc | hc
      · exact absurd h0 hc
      · exact ⟨h0, hc, hrv.symm⟩
    · split at h
      · exact absurd (probe_exit.error.inj h).1 (by decide)
      · split at h
        · rename_i hr
          exact absurd (probe_exit.error.inj h).1 hr
        · exact absurd rfl (rcar_vivid_probe_loop_error_ne_zero env _ _ _ _ 0 h)

theorem rcar_vivid_remove_unregistered (MAX : Nat) (channel_num : Int) (h : 0 < channel_num) :
    rcar_vivid_remove { channel_num := channel_num, vivid := List.replicate MAX none }
      = none := by
  obtain ⟨n, hn⟩ : ∃ n, channel_num.toNat = n + 1 :=
    Nat.exists_eq_succ_of_ne_zero (by omega)
  simp only [rcar_vivid_remove, hn, rcar_vivid_remove_loop]
  cases MAX with
  | zero => simp
  | succ m => simp [List.replicate_succ]

/-- After a successful `vivid_taurus_get_info` that reports more than
`MAX_VIVID_DEVICE_NUM` cameras, probe jumps to `error` with `ret` 0, and
`rcar_vivid_remove` reads through the NULL `rvivid->vivid[0]`: no error code is
returned. -/
theorem rcar_vivid_probe_channel_count (MAX : Nat) (env : probe_env)
    (halloc : env.alloc = true) (hinfo : env.get_info = 0)
    (hnum : env.channel_num > (MAX : Int)) :
    rcar_vivid_probe_body MAX env
      = probe_exit.error 0
          { channel_num := env.channel_num, vivid := List.replicate MAX none } ∧
    rcar_vivid_probe MAX env = none := by
  have hb : rcar_vivid_probe_body MAX env
      = probe_exit.error 0
          { channel_num := env.channel_num, vivid := List.replicate MAX none } := by
    simp [rcar_vivid_probe_body, halloc, hinfo, hnum]
  refine ⟨hb, ?_⟩
  simp only [rcar_vivid_probe, hb]
  rw [rcar_vivid_remove_unregistered MAX env.channel_num (by omega)]

/-- Probe returns 0 only by the `return 0` that follows the loop. -/
theorem rcar_vivid_probe_zero (MAX : Nat) (env : probe_env)
    (h : rcar_vivid_probe MAX env = some 0) :
    rcar_vivid_probe_body MAX env = probe_exit.returned 0 := by
  unfold rcar_vivid_probe at h
  cases hb : rcar_vivid_probe_body MAX env with
  | returned ret =>
    simp only [hb, Option.some.injEq] at h
    rw [h]
  | error ret rvivid =>
    simp only [hb] at h
    cases hr : rcar_vivid_remove rvivid with
    | none => simp [hr] at h
    | some steps =>
      simp only [hr, Option.some.injEq] at h
      subst h
      obtain ⟨_, hnum, rfl⟩ := rcar_vivid_probe_body_error_zero MAX env rvivid hb
      rw [rcar_vivid_remove_unregistered MAX env.channel_num (by omega)] at hr
      exact absurd hr (by simp)

/-- C21, the code at failing inputs, `MAX_VIVID_DEVICE_NUM` being 4: when
`vivid_taurus_get_info` succeeds and reports 5 cameras, probe jumps to `error` with
`ret` 0, no error code having been assigned, and `rcar_vivid_remove` then reads through
`rvivid->vivid[0]`, which is NULL: no non-zero error code is returned.  When the
devicetree node is missing with 2 cameras reported, `ret` is `-ENOMEM` at `error` and
the removal reads through the same NULL pointer.  With no camera reported the error
path does return its code. -/
theorem C21_probe_error_path :
    rcar_vivid_probe_body 4 (demo_probe_env 5)
      = probe_exit.error 0 { channel_num := 5, vivid := [none, none, none, none] } ∧
    rcar_vivid_probe 4 (demo_probe_env 5) = none ∧
    rcar_vivid_probe_body 4 { demo_probe_env 2 with node := false }
      = probe_exit.error (-ENOMEM) { channel_num := 2, vivid := [none, none, none, none] } ∧
    rcar_vivid_probe 4 { demo_probe_env 2 with node := false } = none ∧
    rcar_vivid_probe 4 { demo_probe_env 0 with node := false } = some (-ENOMEM) ∧
    rcar_vivid_probe 4 (demo_probe_env 2) = some 0 := by
  decide

end LinuxBsp
